import Mathlib

/-!
Verification development for the rating engine of the
Software-Engineering-Project1-Team-Phase-2 repository.

The Python sources under `src/` are shallowly embedded below.  Pure
computations are translated into Lean functions over `Rat` (Python floats
are modelled by rational numbers: every literal appearing in the sources
is exactly representable, and the claims under study concern interval
membership and table values, not binary rounding).  Network fetches,
regular-expression matches, wall-clock reads and date arithmetic are
modelled as explicit environment inputs: a scorer receives the outcome of
each outbound fetch (and of each regex) as an argument, so quantifying
over those arguments quantifies over every behaviour of the outside
world.  Each `try/except` fallback branch of the sources is represented
explicitly, either by an `Option` input standing for the raising access
path, or by a boolean flag when the guarded block has no other observable
input.
-/

namespace RatingEngine

/-! ## String utilities — models of Python string primitives

The Lean core `String.toLower`, `String.trim`, `String.splitOn` are built
on byte-position substring machinery that the kernel cannot evaluate, so
the Python string primitives are modelled directly on character lists. -/

/-- ASCII lower-casing of one character (Python `str.lower` on the ASCII
identifiers and README keywords handled by the scorers). -/
def lowerChar (c : Char) : Char :=
  if 65 ≤ c.toNat ∧ c.toNat ≤ 90 then Char.ofNat (c.toNat + 32) else c

/-- Model of Python's `s.lower()`. -/
def lowerS (s : String) : String :=
  ⟨s.data.map lowerChar⟩

/-- Whitespace stripped by Python's `s.strip()`. -/
def isSpaceC (c : Char) : Bool :=
  c = ' ' || c = '\t' || c = '\n' || c = '\r'

/-- Model of Python's `s.strip()`. -/
def trimS (s : String) : String :=
  ⟨((s.data.dropWhile isSpaceC).reverse.dropWhile isSpaceC).reverse⟩

/-- Python truthiness test for a string (`""` is falsy). -/
def emptyS (s : String) : Bool :=
  s.data.isEmpty

/-- Model of Python's `s.split(sep)` for a one-character separator, on
character lists. -/
def splitOnC (sep : Char) : List Char → List (List Char)
  | [] => [[]]
  | c :: t =>
    if c = sep then [] :: splitOnC sep t
    else
      match splitOnC sep t with
      | [] => [[c]]
      | h :: r => (c :: h) :: r

/-- Model of Python's `s.split(sep)`. -/
def splitS (sep : Char) (s : String) : List String :=
  (splitOnC sep s.data).map String.mk

/-- Model of Python's `needle in hay` substring test, on character lists. -/
def subList (needle : List Char) : List Char → Bool
  | [] => needle.isEmpty
  | c :: t => needle.isPrefixOf (c :: t) || subList needle t

/-- Model of Python's `needle in hay` substring test on strings. -/
def strIn (needle hay : String) : Bool :=
  subList needle.data hay.data

/-- Model of Python's `hay.count(needle)` (greedy left-to-right
non-overlapping occurrence count) for a non-empty needle: after a match
the scan skips the remaining `skip` characters of the matched
occurrence. -/
def countSubGo (needle : List Char) : List Char → Nat → Nat
  | [], _ => 0
  | c :: t, skip =>
    if 0 < skip then countSubGo needle t (skip - 1)
    else if needle.isPrefixOf (c :: t) then 1 + countSubGo needle t (needle.length - 1)
    else countSubGo needle t 0

/-- Model of Python's `hay.count(needle)`. -/
def countSub (needle hay : String) : Nat :=
  match needle.data with
  | [] => hay.data.length + 1
  | n :: ns => countSubGo (n :: ns) hay.data 0

/-- Model of Python's `s.endswith(suffix)`. -/
def endsWithS (suffix s : String) : Bool :=
  suffix.data.reverse.isPrefixOf s.data.reverse

/-- Python truthiness of an optional string (`None` and `""` are falsy). -/
def falsyS : Option String → Bool
  | none => true
  | some s => emptyS s

/-! ## Data model

`ModelInfo` mirrors `src/models/model.py`'s descriptor as consumed by the
metric scorers: the fields a scorer reads, with `Option` marking values
that may be `None` in Python.  A whole-descriptor `Option ModelInfo`
models passing `None` as the descriptor (every attribute access then
raises, landing in the scorer's `except` fallback). -/

/-- One entry of a `model_index` `results` list: `metricsLen = some n` iff
the entry has a `metrics` key holding a list of length `n`. -/
structure IdxResult where
  metricsLen : Option Nat
deriving DecidableEq

/-- One `model_index` entry.  `results = some rs` iff the `results` key is
present and holds a (non-`None`) list; `datasetsKey = some v` iff the
`datasets` key is present, with `v = some n` iff its value is a list of
length `n`. -/
structure IdxEntry where
  results : Option (List IdxResult)
  datasetsKey : Option (Option Nat)
deriving DecidableEq

/-- The artifact descriptor fields read by the scorers. -/
structure ModelInfo where
  name : String
  api_license : Option String
  last_modified : Option String
  likes : Option Nat
  downloads : Option Nat
  pipeline_tag : Option String
  library_name : Option String
  tags : Option (List String)
  model_index : Option (List IdxEntry)
deriving DecidableEq

/-- Outcome of an outbound fetch: `err` models a raised network/parse
exception, `miss` a non-2xx response, `ok` a 200 response with payload. -/
inductive Fetch (α : Type) where
  | err : Fetch α
  | miss : Fetch α
  | ok : α → Fetch α
deriving DecidableEq

/-- One item of a file-listing response: the optional `path` and `size`
keys actually read by the scorers. -/
structure FileItem where
  path : Option String
  size : Option Nat
deriving DecidableEq

/-! ## License scorer — `src/metrics/license_metric.py` -/

/-- The fixed license-compatibility table (`LicenseMetric.license_scores`),
in insertion order. -/
def license_scores : List (String × ℚ) :=
  [("apache-2.0", 0.9), ("mit", 0.9), ("bsd-3-clause", 1.0), ("bsd-2-clause", 1.0),
   ("lgpl-2.1", 1.0), ("lgpl-3.0", 0.8), ("gpl-2.0", 0.3), ("gpl-3.0", 0.3),
   ("cc-by-4.0", 0.7), ("cc-by-sa-4.0", 0.6), ("unknown", 0.5), ("other", 0.5)]

/-- First table entry whose key occurs as a substring of `key`
(the `for known_license, score in self.license_scores.items()` loop). -/
def find_known : List (String × ℚ) → String → Option ℚ
  | [], _ => none
  | (k, v) :: rest, key => if strIn k key then some v else find_known rest key

/-- `LicenseMetric._parse_license_from_readme`.  `fetch` is the README
fetch outcome (`none` covers non-200 responses and raised exceptions,
both of which yield `None` in the source); `ex1`/`ex2` are the two regex
extractions (License section, `license:` line), returning the matched
group when the regex matches. -/
def parse_license_from_readme (fetch : Option String) (ex1 ex2 : String → Option String) :
    Option String :=
  match fetch with
  | none => none
  | some content =>
    match ex1 content with
    | some m => some (trimS m)
    | none =>
      match ex2 content with
      | some m => some (trimS m)
      | none => none

/-- The known-licenses table check followed by the permissive-pattern
fallback in `LicenseMetric.calculate`, applied to the normalized key. -/
def license_of_key (key : String) : ℚ :=
  match find_known license_scores key with
  | some v => v
  | none =>
    if strIn "apache" key || strIn "mit" key || strIn "bsd" key then 0.9
    else if strIn "cc" key || strIn "creative" key then 0.7
    else if strIn "lgpl" key then 0.9
    else if strIn "gpl" key then 0.3
    else 0.5

/-- `LicenseMetric.calculate`.  `info = none` models a `None` descriptor:
the attribute access raises and the outer `except` returns `0.5`. -/
def license_calculate (info : Option ModelInfo) (fetch : Option String)
    (ex1 ex2 : String → Option String) : ℚ :=
  match info with
  | none => 0.5
  | some i =>
    let li0 := i.api_license
    let li := if falsyS li0 then parse_license_from_readme fetch ex1 ex2 else li0
    if falsyS li then 0.5
    else license_of_key (trimS (lowerS (li.getD "")))

/-! ## Size scorer — `src/metrics/size_metric.py` -/

/-- The fixed per-hardware capacity limits (`SizeMetric.hardware_limits`),
in GB, in insertion order. -/
def hardware_limits : List (String × ℚ) :=
  [("raspberry_pi", 1.0), ("jetson_nano", 4.0), ("desktop_pc", 16.0), ("aws_server", 64.0)]

/-- Total of the `size` fields of a file listing (`total_size` loop). -/
def totalSize (items : List FileItem) : Nat :=
  (items.filterMap FileItem.size).sum

/-- `SizeMetric._estimate_model_size`.  `fetch` is the file-listing fetch:
`err` (raised exception) lands in the `except` returning the 2.0 default,
`miss` (non-200) leaves `total_size = 0` and falls through to the
name-based estimate, `ok items` sums the `size` fields. -/
def estimate_model_size (info : Option ModelInfo) (fetch : Fetch (List FileItem)) : ℚ :=
  match info with
  | none => 2.0
  | some i =>
    match fetch with
    | .err => 2.0
    | f =>
      let total := match f with
        | .ok items => totalSize items
        | _ => 0
      if 0 < total then (total : ℚ) / 1073741824
      else
        let n := lowerS i.name
        if strIn "7b" n || strIn "7-b" n then 13.0
        else if strIn "13b" n || strIn "13-b" n then 26.0
        else if strIn "70b" n || strIn "70-b" n then 140.0
        else if strIn "3b" n || strIn "3-b" n then 6.0
        else if strIn "1b" n || strIn "1-b" n then 2.0
        else if strIn "small" n then 0.5
        else if strIn "large" n then 5.0
        else 2.0

/-- The body of the per-hardware loop in `SizeMetric.calculate`: the score
assigned to one hardware class of capacity `limit` for an estimated size
`s`. -/
def size_score_of (s limit : ℚ) : ℚ :=
  if s ≤ limit * 0.5 then 1.0
  else if s ≤ limit * 0.8 then 0.9
  else if s ≤ limit then 0.8
  else if s ≤ limit * 1.5 then 0.6
  else if s ≤ limit * 2.0 then 0.5
  else if s ≤ limit * 3.0 then 0.4
  else 0.3

/-- `SizeMetric.calculate`.  `crash = true` models the outer `except`
branch (every class falls back to 0.7). -/
def size_calculate (crash : Bool) (info : Option ModelInfo) (fetch : Fetch (List FileItem)) :
    List (String × ℚ) :=
  if crash then hardware_limits.map fun p => (p.1, 0.7)
  else hardware_limits.map fun p => (p.1, size_score_of (estimate_model_size info fetch) p.2)

/-- Lookup of one hardware class in the computed score map. -/
def scoresGet (l : List (String × ℚ)) (k : String) : Option ℚ :=
  (l.find? fun p => p.1 == k).map Prod.snd

/-! ## Bus factor scorer — `src/metrics/busfactor_metric.py` -/

/-- The fixed well-known model-family list shared by the BusFactor,
RampUp, PerformanceClaims and CodeQuality scorers. -/
def known_models : List String :=
  ["bert", "gpt", "whisper", "t5", "roberta", "vit", "clip", "resnet",
   "swin", "llama", "mistral", "falcon"]

/-- `any(known_model in model_name_lower for known_model in [...])`. -/
def isKnownModel (nameLower : String) : Bool :=
  known_models.any fun m => strIn m nameLower

/-- The fixed organization-reputation table (`known_orgs`), in insertion
order. -/
def known_orgs : List (String × ℚ) :=
  [("openai", 0.9), ("google", 0.9), ("microsoft", 0.9), ("meta-llama", 0.9),
   ("anthropic", 0.9), ("huggingface", 0.8), ("facebook", 0.8), ("mistralai", 0.8),
   ("nvidia", 0.8), ("stabilityai", 0.7)]

/-- `BusFactorMetric._check_recent_activity`.  `parseDays` is the
environment's date arithmetic: `parseDays s = some d` when the ISO parse
of `s` succeeds and the artifact is `d` days old, `none` when the parse
raises (inner `except` returns 0.5). -/
def check_recent_activity (lastModified : Option String) (parseDays : String → Option Int) : ℚ :=
  match lastModified with
  | none => 0.5
  | some s =>
    match parseDays s with
    | none => 0.5
    | some d =>
      if d ≤ 30 then 1.0
      else if d ≤ 90 then 0.8
      else if d ≤ 180 then 0.6
      else if d ≤ 365 then 0.4
      else 0.2

/-- `BusFactorMetric._analyze_maintainers`: organization reputation from
the name's namespace prefix (first table key occurring in the lower-cased
prefix wins, else 0.5; a name without a `/` separator scores 0.5). -/
def analyze_maintainers (name : String) : ℚ :=
  let parts := splitS '/' name
  if parts.length < 2 then 0.5
  else
    let org := lowerS (parts.headD "")
    match find_known known_orgs org with
    | some v => v
    | none => 0.5

/-- `BusFactorMetric._assess_community`: saturating thresholds on likes
and downloads (`None` counters are `or 0`-defaulted). -/
def assess_community (likes downloads : Option Nat) : ℚ :=
  let l := likes.getD 0
  let d := downloads.getD 0
  if 1000 < l || 100000 < d then 1.0
  else if 100 < l || 10000 < d then 0.8
  else if 10 < l || 1000 < d then 0.6
  else if 0 < l || 0 < d then 0.4
  else 0.4

/-- `BusFactorMetric.calculate`.  `info = none` models a `None`
descriptor: `model_info.name` raises and the outer `except` returns
0.5. -/
def busfactor_calculate (info : Option ModelInfo) (parseDays : String → Option Int) : ℚ :=
  match info with
  | none => 0.5
  | some i =>
    let base : ℚ := if isKnownModel (lowerS i.name) then 0.6 else 0.4
    let score := base + check_recent_activity i.last_modified parseDays * 0.4
      + analyze_maintainers i.name * 0.3 + assess_community i.likes i.downloads * 0.3
    min 1.0 score

/-! ## Dataset quality scorer — `src/metrics/dataset_quality_metric.py` -/

/-- The dataset-documentation vocabulary (`dataset_quality_terms`). -/
def dataset_quality_terms : List String :=
  ["data source", "data collection", "data cleaning", "preprocessing",
   "filtering", "deduplication", "quality control", "curation",
   "annotation", "labeling", "validation"]

/-- Number of vocabulary terms occurring in `content` (`found_terms`
loops). -/
def countTerms (terms : List String) (content : String) : Nat :=
  (terms.filter fun t => strIn t content).length

/-- `DatasetQualityMetric._check_dataset_documentation`.  `fetch = none`
covers a non-200 response and a raised exception (both return 0.4);
`sizeHit` is the `\d+[kmb]?\s*(tokens|...)` regex outcome on the
lower-cased content. -/
def check_dataset_documentation (fetch : Option String) (sizeHit : String → Bool) : ℚ :=
  match fetch with
  | none => 0.4
  | some raw =>
    let content := lowerS raw
    let s1 := min 0.6 ((countTerms dataset_quality_terms content : ℚ) * 0.1)
    let s2 : ℚ := if sizeHit content then 0.2 else 0
    let s3 : ℚ :=
      if ["composition", "distribution", "breakdown", "statistics"].any
          (fun t => strIn t content) then 0.2
      else 0
    min 1.0 (s1 + s2 + s3)

/-- The preprocessing vocabulary (`preprocessing_terms`). -/
def preprocessing_terms : List String :=
  ["tokenization", "normalization", "cleaning", "filtering",
   "preprocessing", "preparation", "augmentation", "transformation"]

/-- `DatasetQualityMetric._check_preprocessing_info`. -/
def check_preprocessing_info (fetch : Option String) : ℚ :=
  match fetch with
  | none => 0.4
  | some raw =>
    let content := lowerS raw
    let s1 := min 0.8 ((countTerms preprocessing_terms content : ℚ) * 0.15)
    let s2 : ℚ :=
      if ["spacy", "nltk", "tokenizer", "bpe", "sentencepiece"].any
          (fun t => strIn t content) then 0.2
      else 0
    max 0.4 (min 1.0 (s1 + s2))

/-- The known high-quality dataset table (`quality_datasets`). -/
def quality_datasets : List (String × ℚ) :=
  [("common crawl", 0.7), ("c4", 0.8), ("pile", 0.8), ("openwebtext", 0.7),
   ("wikipedia", 0.9), ("books3", 0.6), ("arxiv", 0.8), ("pubmed", 0.8),
   ("github", 0.7), ("stackexchange", 0.7), ("refinedweb", 0.8),
   ("dolma", 0.8), ("redpajama", 0.7)]

/-- `DatasetQualityMetric._check_known_datasets`: maximum table score
over the datasets mentioned in the content, else 0.5/0.3 by general
quality indicators. -/
def check_known_datasets (fetch : Option String) : ℚ :=
  match fetch with
  | none => 0.3
  | some raw =>
    let content := lowerS raw
    let maxScore := (quality_datasets.filter fun p => strIn p.1 content).foldl
      (fun acc p => max acc p.2) 0
    if maxScore = 0 then
      if ["curated", "filtered", "high-quality", "clean"].any
          (fun t => strIn t content) then 0.5
      else 0.3
    else maxScore

/-- `DatasetQualityMetric.calculate`.  The three README fetches are
independent requests, hence three fetch arguments; `crash = true` models
the outer `except` branch returning 0.6. -/
def dataset_quality_calculate (crash : Bool) (fetchDoc fetchPrep fetchKnown : Option String)
    (sizeHit : String → Bool) : ℚ :=
  if crash then 0.6
  else
    let score := 0.4 + check_dataset_documentation fetchDoc sizeHit * 0.3
      + check_preprocessing_info fetchPrep * 0.2 + check_known_datasets fetchKnown * 0.2
    min 1.0 (max 0.5 score)

/-! ## Ramp-up scorer — `src/metrics/rampup_metric.py` -/

/-- `RampUpMetric._analyze_readme`. -/
def analyze_readme (fetch : Option String) : ℚ :=
  match fetch with
  | none => 0.4
  | some raw =>
    let content := lowerS raw
    let s1 : ℚ := if strIn "usage" content || strIn "how to use" content then 0.3 else 0
    let s2 : ℚ := if strIn "example" content || strIn "code" content then 0.2 else 0
    let s3 : ℚ := if strIn "install" content || strIn "pip install" content then 0.2 else 0
    let s4 : ℚ := if strIn "license" content then 0.1 else 0
    let s5 : ℚ := if strIn "dataset" content || strIn "training" content then 0.1 else 0
    let s6 : ℚ := if 500 < content.data.length then 0.1 else 0
    min 1.0 (s1 + s2 + s3 + s4 + s5 + s6)

/-- Per-item contribution to `example_files` in
`RampUpMetric._check_examples` (the loop only accumulates, so it is a sum
of independent contributions). -/
def exampleFileWeight (item : FileItem) : ℚ :=
  match item.path with
  | none => 0
  | some p =>
    let filename := lowerS p
    if ["example", "demo", "sample", "test"].any (fun w => strIn w filename) then 1
    else if (endsWithS ".py" filename || endsWithS ".ipynb" filename ||
        endsWithS ".md" filename) && !(strIn "readme" filename) then 0.5
    else 0

/-- `RampUpMetric._check_examples`. -/
def check_examples (fetch : Fetch (List FileItem)) : ℚ :=
  match fetch with
  | .err => 0.4
  | .miss => 0.4
  | .ok items => min 1.0 ((items.map exampleFileWeight).sum * 0.3)

/-- Python truthiness of an optional list (`None` and `[]` are falsy). -/
def falsyL {α : Type} : Option (List α) → Bool
  | none => true
  | some l => l.isEmpty

/-- `RampUpMetric._analyze_model_card`. -/
def analyze_model_card (i : ModelInfo) : ℚ :=
  let s1 : ℚ := if falsyS i.pipeline_tag then 0 else 0.2
  let s2 : ℚ := if falsyS i.library_name then 0 else 0.2
  let s3 : ℚ := if !falsyL i.tags && 0 < (i.tags.getD []).length then 0.2 else 0
  let s4 : ℚ := if !falsyL i.model_index && 0 < (i.model_index.getD []).length then 0.4 else 0
  min 1.0 (s1 + s2 + s3 + s4)

/-- `RampUpMetric._calculate_popularity_score`.  `sqrtF` is the
environment's evaluation of the float `** 0.5` operator; it is applied
only to the non-negative quotients appearing in the source. -/
def calculate_popularity_score (likes downloads : Option Nat) (sqrtF : ℚ → ℚ) : ℚ :=
  let d := downloads.getD 0
  let l := likes.getD 0
  let download_score : ℚ := if 0 < d then min 1.0 (sqrtF ((d : ℚ) / 10000)) else 0
  let likes_score : ℚ := if 0 < l then min 1.0 (sqrtF ((l : ℚ) / 100)) else 0
  (download_score + likes_score) / 2

/-- `RampUpMetric.calculate`.  `info = none` models a `None` descriptor
(outer `except` returns 0.5). -/
def rampup_calculate (info : Option ModelInfo) (fetchReadme : Option String)
    (fetchFiles : Fetch (List FileItem)) (sqrtF : ℚ → ℚ) : ℚ :=
  match info with
  | none => 0.5
  | some i =>
    let base : ℚ := if isKnownModel (lowerS i.name) then 0.7 else 0.4
    let score := base + analyze_readme fetchReadme * 0.4 + check_examples fetchFiles * 0.3
      + analyze_model_card i * 0.2 + calculate_popularity_score i.likes i.downloads sqrtF * 0.1
    min 1.0 score

/-! ## Performance-claims scorer — `src/metrics/performance_metric.py` -/

/-- Contribution of one `model_index` `results` entry to
`PerformanceMetric._analyze_model_index`'s score. -/
def idxResultWeight (r : IdxResult) : ℚ :=
  match r.metricsLen with
  | some n => min 0.3 ((n : ℚ) * 0.1)
  | none => 0

/-- Contribution of one `model_index` entry. -/
def idxEntryWeight (e : IdxEntry) : ℚ :=
  (match e.results with
    | some rs => if 0 < rs.length then 0.5 + (rs.map idxResultWeight).sum else 0
    | none => 0)
  + (if e.datasetsKey.isSome then 0.2 else 0)

/-- `PerformanceMetric._analyze_model_index`. -/
def analyze_model_index (modelIndex : Option (List IdxEntry)) : ℚ :=
  if falsyL modelIndex then 0.3
  else min 1.0 (((modelIndex.getD []).map idxEntryWeight).sum)

/-- The benchmark vocabulary (`benchmark_terms`). -/
def benchmark_terms : List String :=
  ["benchmark", "evaluation", "eval", "performance", "accuracy",
   "bleu", "rouge", "bert-score", "glue", "superglue", "hellaswag",
   "mmlu", "truthfulqa", "arc", "winogrande", "gsm8k"]

/-- `PerformanceMetric._analyze_readme_benchmarks`.  `numbersFound` is
the environment's count of the numeric-result regex matches. -/
def analyze_readme_benchmarks (fetch : Option String) (numbersFound : String → Nat) : ℚ :=
  match fetch with
  | none => 0.3
  | some raw =>
    let content := lowerS raw
    let found := countTerms benchmark_terms content
    let s1 : ℚ := if 5 ≤ found then 0.8 else if 3 ≤ found then 0.6
      else if 1 ≤ found then 0.3 else 0
    let s2 : ℚ := min 0.4 ((numbersFound content : ℚ) * 0.1)
    min 1.0 (s1 + s2)

/-- The evaluation-tag vocabulary (`evaluation_tags`). -/
def evaluation_tags : List String :=
  ["evaluation", "benchmark", "leaderboard", "performance",
   "tested", "validated", "eval"]

/-- `PerformanceMetric._analyze_tags`. -/
def analyze_tags (tags : Option (List String)) : ℚ :=
  if falsyL tags then 0.3
  else
    let score := (((tags.getD []).filter fun t =>
      evaluation_tags.any fun e => strIn e (lowerS t)).length : ℚ) * 0.2
    min 1.0 (max 0.3 score)

/-- `PerformanceMetric.calculate`. -/
def performance_calculate (info : Option ModelInfo) (fetchReadme : Option String)
    (numbersFound : String → Nat) : ℚ :=
  match info with
  | none => 0.5
  | some i =>
    let base : ℚ := if isKnownModel (lowerS i.name) then 0.5 else 0.3
    let score := base + analyze_model_index i.model_index * 0.5
      + analyze_readme_benchmarks fetchReadme numbersFound * 0.3
      + analyze_tags i.tags * 0.2
    min 1.0 score

/-! ## Dataset-and-code scorer — `src/metrics/dataset_code_metric.py` -/

/-- The dataset vocabulary (`dataset_terms`). -/
def dataset_terms : List String :=
  ["dataset", "training data", "trained on", "data source",
   "corpus", "collection", "benchmark"]

/-- The `model_index` section of `DatasetCodeMetric._check_dataset_info`
(0.5 when some entry carries a non-empty `datasets` list). -/
def dataset_info_index_score (modelIndex : Option (List IdxEntry)) : ℚ :=
  if !falsyL modelIndex &&
      ((modelIndex.getD []).any fun e =>
        match e.datasetsKey with
        | some (some n) => 0 < n
        | _ => false) then 0.5
  else 0

/-- The README section of `DatasetCodeMetric._check_dataset_info`
(skipped on a non-200 response); `dataSizeHit` is the data-size regex
outcome. -/
def dataset_info_readme_score (f : Fetch String) (dataSizeHit : String → Bool) : ℚ :=
  match f with
  | .ok raw =>
    let content := lowerS raw
    let found := countTerms dataset_terms content
    (if 3 ≤ found then 0.4 else if 1 ≤ found then 0.2 else 0)
      + (if strIn "huggingface.co/datasets/" content then 0.3 else 0)
      + (if dataSizeHit content then 0.2 else 0)
  | _ => 0

/-- `DatasetCodeMetric._check_dataset_info`.  `fetch` is the README
fetch (`err` raises into the 0.4 fallback, `miss` skips the README
section). -/
def check_dataset_info (modelIndex : Option (List IdxEntry)) (fetch : Fetch String)
    (dataSizeHit : String → Bool) : ℚ :=
  match fetch with
  | .err => 0.4
  | f => min 1.0 (dataset_info_index_score modelIndex + dataset_info_readme_score f dataSizeHit)

/-- Per-item `code_files` contribution in
`DatasetCodeMetric._check_code_availability` (paths lower-cased). -/
def codeFileWeight (item : FileItem) : Nat :=
  match item.path with
  | none => 0
  | some p =>
    let fp := lowerS p
    if endsWithS ".py" fp then 1
    else if endsWithS ".ipynb" fp then 0
    else if fp = "training_args.json" || fp = "run.sh" || fp = "train.sh" then 1
    else 0

/-- Per-item `example_files` contribution in
`DatasetCodeMetric._check_code_availability`. -/
def exampleCodeWeight (item : FileItem) : Nat :=
  match item.path with
  | none => 0
  | some p =>
    let fp := lowerS p
    if endsWithS ".py" fp then
      if ["train", "inference", "run", "example", "demo"].any (fun w => strIn w fp) then 1
      else 0
    else if endsWithS ".ipynb" fp then 1
    else 0

/-- The file-listing section of
`DatasetCodeMetric._check_code_availability` (skipped — score 0 — on a
non-200 response). -/
def code_avail_files_score (f : Fetch (List FileItem)) : ℚ :=
  match f with
  | .ok items =>
    let code_files := (items.map codeFileWeight).sum
    let example_files := (items.map exampleCodeWeight).sum
    (if 0 < code_files then 0.3 else 0) + (if 0 < example_files then 0.4 else 0)
      + (if 3 ≤ code_files then 0.2 else 0)
  | _ => 0

/-- The README section of `DatasetCodeMetric._check_code_availability`
(skipped on a non-200 response). -/
def code_avail_readme_score (r : Fetch String) : ℚ :=
  match r with
  | .ok content =>
    let code_blocks := countSub "\x60\x60\x60python" content + countSub "\x60\x60\x60" content
    (if 2 ≤ code_blocks then 0.3 else if 1 ≤ code_blocks then 0.2 else 0)
      + (if strIn "from transformers import" content || strIn "import torch" content
          then 0.2 else 0)
  | _ => 0

/-- `DatasetCodeMetric._check_code_availability`.  Two fetches: the file
listing (a `miss` skips its section) and the README (`err` anywhere
raises into the 0.4 fallback). -/
def check_code_availability (files : Fetch (List FileItem)) (readme : Fetch String) : ℚ :=
  match files, readme with
  | .err, _ => 0.4
  | _, .err => 0.4
  | f, r => min 1.0 (code_avail_files_score f + code_avail_readme_score r)

/-- `DatasetCodeMetric.calculate`.  Unlike the other scorers, `calculate`
itself performs no attribute access on the descriptor: with a `None`
descriptor the `AttributeError`s are raised inside `_check_dataset_info`
(at `model_info.model_index`) and `_check_code_availability` (at
`model_info.name`), each caught by that helper's own `except` returning
0.4 — before any fetch happens, so the fetch arguments are irrelevant on
that path and the result is `min(1.0, 0.4·0.6 + 0.4·0.4) = 0.4`.  The
outer `except → 0.5` of the source is unreachable, since both helpers
catch their own exceptions. -/
def dataset_code_calculate (info : Option ModelInfo) (fetchReadme1 : Fetch String)
    (dataSizeHit : String → Bool) (fetchFiles : Fetch (List FileItem))
    (fetchReadme2 : Fetch String) : ℚ :=
  match info with
  | none =>
    min 1.0 (check_dataset_info none .err dataSizeHit * 0.6
      + check_code_availability .err .err * 0.4)
  | some i =>
    let score := check_dataset_info i.model_index fetchReadme1 dataSizeHit * 0.6
      + check_code_availability fetchFiles fetchReadme2 * 0.4
    min 1.0 score

/-! ## Code quality scorer — `src/metrics/code_quality_metric.py` -/

/-- The `standard_files` table (keys as written in the source; the looked
up file name is lower-cased first, so the `README.md` entry can never
match — kept verbatim). -/
def standard_files : List (String × ℚ) :=
  [("requirements.txt", 0.1), ("setup.py", 0.1), ("pyproject.toml", 0.1),
   ("config.json", 0.1), ("tokenizer.json", 0.1), ("README.md", 0.1)]

/-- `os.path.basename`: the part of the path after the last `/`. -/
def basenameS (p : String) : String :=
  (splitS '/' p).getLastD ""

/-- Per-item `standard_files` contribution in
`CodeQualityMetric._check_code_structure`. -/
def standardFileWeight (item : FileItem) : ℚ :=
  match item.path with
  | none => 0
  | some p =>
    let filename := lowerS (basenameS p)
    match (standard_files.find? fun q => q.1 == filename) with
    | some q => q.2
    | none => 0

/-- `CodeQualityMetric._check_code_structure`.  `fetch = none` covers a
non-200 response and a raised exception (both return 0.4). -/
def check_code_structure (fetch : Option (List FileItem)) : ℚ :=
  match fetch with
  | none => 0.4
  | some items =>
    let base := (items.map standardFileWeight).sum
    let python_files := (items.filter fun it =>
      endsWithS ".py" (it.path.getD "x")).length
    let config_files := (items.filter fun it =>
      match it.path with
      | none => false
      | some p => !endsWithS ".py" p && (endsWithS ".json" p || endsWithS ".yaml" p ||
          endsWithS ".yml" p || endsWithS ".toml" p)).length
    let s := base + (if 0 < python_files then 0.2 else 0)
      + (if 3 ≤ python_files then 0.2 else 0) + (if 0 < config_files then 0.1 else 0)
    min 1.0 s

/-- A single apostrophe character, by code point. -/
def squoteC : Char := Char.ofNat 39

/-- Python's `"'''"` docstring delimiter. -/
def tripleSq : String := String.mk [squoteC, squoteC, squoteC]

/-- Python's `'\x22\x22\x22'` docstring delimiter. -/
def tripleDq : String := String.mk [Char.ofNat 34, Char.ofNat 34, Char.ofNat 34]

/-- Documentation-indicator count for one fetched Python file in
`CodeQualityMetric._check_code_documentation`. -/
def docIndicators (content : String) : Nat :=
  (if strIn tripleDq content || strIn tripleSq content then 1 else 0)
  + (if 5 ≤ countSub "#" content then 1 else 0)
  + (if strIn "def " content && (strIn tripleDq content || strIn tripleSq content)
      then 1 else 0)
  + (if ["args:", "returns:", "parameters:"].any (fun w => strIn w (lowerS content))
      then 1 else 0)

/-- `CodeQualityMetric._check_code_documentation`.  `fetch` is the file
listing (`none` for non-200 or exception); `pyFetch` gives each sampled
Python file's contents (`none` for a non-200 response or a raised inner
exception, both of which skip the file). -/
def check_code_documentation (fetch : Option (List FileItem))
    (pyFetch : String → Option String) : ℚ :=
  match fetch with
  | none => 0.4
  | some items =>
    let python_files := (items.filterMap FileItem.path).filter (endsWithS ".py")
    if python_files.isEmpty then 0.4
    else
      let fetched := (python_files.take 3).filterMap pyFetch
      let checked := fetched.length
      let documented := (fetched.filter fun c => 2 ≤ docIndicators c).length
      if checked = 0 then 0.4
      else max 0.4 ((documented : ℚ) / (checked : ℚ))

/-- The best-practices vocabulary (`quality_indicators`). -/
def quality_indicators : List String :=
  ["lint", "flake8", "black", "type hint", "mypy", "pytest",
   "test", "ci/cd", "github action", "pre-commit"]

/-- `CodeQualityMetric._check_best_practices`.  A `miss` leaves the score
at 0; an `err` raises into the 0.4 fallback. -/
def check_best_practices (fetch : Fetch String) : ℚ :=
  match fetch with
  | .err => 0.4
  | .miss => min 1.0 0
  | .ok raw =>
    let content := lowerS raw
    let s := min 0.5 ((countTerms quality_indicators content : ℚ) * 0.1)
      + (if strIn "pip install" content || strIn "requirements.txt" content then 0.2 else 0)
      + (if strIn "import" content && (strIn "transformers" content || strIn "torch" content)
          then 0.2 else 0)
      + (if strIn "license" content then 0.1 else 0)
    min 1.0 s

/-- `CodeQualityMetric.calculate`. -/
def code_quality_calculate (info : Option ModelInfo) (fetchFiles : Option (List FileItem))
    (pyFetch : String → Option String) (fetchFilesDoc : Option (List FileItem))
    (fetchReadme : Fetch String) : ℚ :=
  match info with
  | none => 0.5
  | some i =>
    let base : ℚ := if isKnownModel (lowerS i.name) then 0.5 else 0.3
    let score := base + check_code_structure fetchFiles * 0.4
      + check_code_documentation fetchFilesDoc pyFetch * 0.3
      + check_best_practices fetchReadme * 0.3
    min 1.0 score

/-! ## Rating endpoint — `src/api/routes/rating.py`

`rate_model` is embedded as a state-passing function: the ratings-cache
table is threaded explicitly, every database access, URL parse, metrics
computation and clock read is supplied by an `Env`, and each access that
can raise carries a boolean failure flag (a raised exception lands in the
outer `except` as a 500 error).  The third result component counts how
many times `calculate_all_metrics` was invoked — each invocation fans
out to the 8 scorers, so 0 invocations means 0 scorer calls. -/

/-- The four-entry `size_score` sub-record (`SizeScore`). -/
structure SizeScoreR where
  raspberry_pi : ℚ
  jetson_nano : ℚ
  desktop_pc : ℚ
  aws_server : ℚ
deriving DecidableEq

/-- The response schema (`ModelRating`), fields in declaration order.
Latency fields are declared `float` in the source. -/
structure ModelRatingR where
  name : String
  category : String
  net_score : ℚ
  net_score_latency : ℚ
  ramp_up_time : ℚ
  ramp_up_time_latency : ℚ
  bus_factor : ℚ
  bus_factor_latency : ℚ
  performance_claims : ℚ
  performance_claims_latency : ℚ
  license : ℚ
  license_latency : ℚ
  dataset_and_code_score : ℚ
  dataset_and_code_score_latency : ℚ
  dataset_quality : ℚ
  dataset_quality_latency : ℚ
  code_quality : ℚ
  code_quality_latency : ℚ
  reproducibility : ℚ
  reproducibility_latency : ℚ
  reviewedness : ℚ
  reviewedness_latency : ℚ
  tree_score : ℚ
  tree_score_latency : ℚ
  size_score : SizeScoreR
  size_score_latency : ℚ
deriving DecidableEq

/-- A stored artifact row, with the fields `rate_model` reads. -/
structure Artifact where
  name : String
  atype : Option String
  url : String
deriving DecidableEq

/-- The metrics dictionary returned by `calculate_all_metrics`: scalar
entries and the `size_score` sub-dictionary, both read with
`.get(key, 0.0)` defaults. -/
structure Metrics where
  scalars : String → Option ℚ
  size_scores : String → Option ℚ

/-- `metrics.get(k, 0.0)`. -/
def mget (m : Metrics) (k : String) : ℚ :=
  (m.scalars k).getD 0

/-- `metrics.get('size_score', {}).get(k, 0.0)`. -/
def msize (m : Metrics) (k : String) : ℚ :=
  (m.size_scores k).getD 0

/-- A row of the ratings cache table: the rating plus the `artifact_id`
and `computed_at` keys added before `put_item`. -/
structure Stored where
  rating : ModelRatingR
  artifact_id : String
  computed_at : String
deriving DecidableEq

/-- The HTTP error outcomes of `rate_model`. -/
inductive RErr where
  | e403 : RErr
  | e404 : RErr
  | badtype : RErr
  | badurl : RErr
  | e500 : RErr
deriving DecidableEq

/-- Environment of one `rate_model` request: header, table contents,
failure flags, URL parser outcome, metrics calculator, clock reads and
timestamp. -/
structure Env where
  auth : Option String
  artifacts : String → Option Artifact
  artifactsFail : Bool
  ratingsGetFail : Bool
  parseType : String → Option (Option String)
  calcM : String → String → Metrics
  calcFail : Bool
  putFail : Bool
  t1 : ℚ
  t2 : ℚ
  now : String

/-- Building the `ModelRating` response from the metrics dictionary
(`rating.py` lines 156–188); `lat` is `time.time() - start_time`. -/
def assemble (nm : String) (m : Metrics) (lat : ℚ) : ModelRatingR :=
  ⟨nm, "MODEL",
   mget m "net_score", lat,
   mget m "ramp_up_time", mget m "ramp_up_time_latency",
   mget m "bus_factor", mget m "bus_factor_latency",
   mget m "performance_claims", mget m "performance_claims_latency",
   mget m "license", mget m "license_latency",
   mget m "dataset_and_code_score", mget m "dataset_and_code_score_latency",
   mget m "dataset_quality", mget m "dataset_quality_latency",
   mget m "code_quality", mget m "code_quality_latency",
   mget m "reproducibility", mget m "reproducibility_latency",
   mget m "reviewedness", mget m "reviewedness_latency",
   mget m "tree_score", mget m "tree_score_latency",
   ⟨msize m "raspberry_pi", msize m "jetson_nano", msize m "desktop_pc", msize m "aws_server"⟩,
   mget m "size_score_latency"⟩

/-- Pointwise table update (`put_item`). -/
def updateT (t : String → Option Stored) (k : String) (v : Stored) : String → Option Stored :=
  fun x => if x = k then some v else t x

/-- The `rate_model` endpoint over an explicit ratings table.  Returns
the HTTP outcome, the table after the call, and the number of
`calculate_all_metrics` invocations. -/
def rate_model (env : Env) (ratings : String → Option Stored) (id : String) :
    Except RErr ModelRatingR × (String → Option Stored) × Nat :=
  if falsyS env.auth then (.error .e403, ratings, 0)
  else if env.artifactsFail then (.error .e500, ratings, 0)
  else
    match env.artifacts id with
    | none => (.error .e404, ratings, 0)
    | some art =>
      if art.atype ≠ some "model" then (.error .badtype, ratings, 0)
      else if env.ratingsGetFail then (.error .e500, ratings, 0)
      else
        match ratings id with
        | some st => (.ok st.rating, ratings, 0)
        | none =>
          match env.parseType art.url with
          | none => (.error .badurl, ratings, 0)
          | some t =>
            if t ≠ some "model" then (.error .badurl, ratings, 0)
            else if env.calcFail then (.error .e500, ratings, 1)
            else
              let m := env.calcM art.name art.url
              let r := assemble art.name m (env.t2 - env.t1)
              if env.putFail then (.error .e500, ratings, 1)
              else (.ok r, updateT ratings id ⟨r, id, env.now⟩, 1)

/-! ## Specification-side definitions -/

/-- The per-class step function exactly as the specification words it:
"≤50% of limit→1.0, ≤80%→0.9, ≤100%→0.8, ≤150%→0.6, ≤200%→0.5,
≤300%→0.4, else→0.3". -/
def spec_step (s limit : ℚ) : ℚ :=
  if s ≤ 0.5 * limit then 1.0
  else if s ≤ 0.8 * limit then 0.9
  else if s ≤ limit then 0.8
  else if s ≤ 1.5 * limit then 0.6
  else if s ≤ 2.0 * limit then 0.5
  else if s ≤ 3.0 * limit then 0.4
  else 0.3

/-- The scalar score keys of the metrics dictionary. -/
def scoreKeys : List String :=
  ["net_score", "ramp_up_time", "bus_factor", "performance_claims", "license",
   "dataset_and_code_score", "dataset_quality", "code_quality",
   "reproducibility", "reviewedness", "tree_score"]

/-- The latency keys of the metrics dictionary. -/
def latencyKeys : List String :=
  ["net_score_latency", "ramp_up_time_latency", "bus_factor_latency",
   "performance_claims_latency", "license_latency",
   "dataset_and_code_score_latency", "dataset_quality_latency",
   "code_quality_latency", "reproducibility_latency", "reviewedness_latency",
   "tree_score_latency", "size_score_latency"]

/-- The four hardware-class keys of the `size_score` sub-dictionary. -/
def sizeKeys : List String :=
  ["raspberry_pi", "jetson_nano", "desktop_pc", "aws_server"]

/-- Modelled from the spec: the output contract of
`MetricsCalculator.calculate_all_metrics` (`src/metrics/calculator.py`,
absent from the sources — only its callers and tests are present).  Per
§3/§4.10 of the specification and the repository's own tests, every
score entry it produces lies in [0,1] and every latency entry is
non-negative. -/
def MetricsOK (m : Metrics) : Prop :=
  (∀ k ∈ scoreKeys, ∀ v, m.scalars k = some v → 0 ≤ v ∧ v ≤ 1) ∧
  (∀ k ∈ latencyKeys, ∀ v, m.scalars k = some v → 0 ≤ v) ∧
  (∀ k ∈ sizeKeys, ∀ v, m.size_scores k = some v → 0 ≤ v ∧ v ≤ 1)

/-- The Rating invariant of the claim under study: the nine `*_latency`
fields it names are non-negative and all score fields lie in [0,1]. -/
def RatingOK (r : ModelRatingR) : Prop :=
  0 ≤ r.net_score_latency ∧ 0 ≤ r.ramp_up_time_latency ∧ 0 ≤ r.bus_factor_latency ∧
  0 ≤ r.performance_claims_latency ∧ 0 ≤ r.license_latency ∧
  0 ≤ r.dataset_and_code_score_latency ∧ 0 ≤ r.dataset_quality_latency ∧
  0 ≤ r.code_quality_latency ∧ 0 ≤ r.size_score_latency ∧
  (0 ≤ r.net_score ∧ r.net_score ≤ 1) ∧ (0 ≤ r.ramp_up_time ∧ r.ramp_up_time ≤ 1) ∧
  (0 ≤ r.bus_factor ∧ r.bus_factor ≤ 1) ∧
  (0 ≤ r.performance_claims ∧ r.performance_claims ≤ 1) ∧
  (0 ≤ r.license ∧ r.license ≤ 1) ∧
  (0 ≤ r.dataset_and_code_score ∧ r.dataset_and_code_score ≤ 1) ∧
  (0 ≤ r.dataset_quality ∧ r.dataset_quality ≤ 1) ∧
  (0 ≤ r.code_quality ∧ r.code_quality ≤ 1) ∧
  (0 ≤ r.size_score.raspberry_pi ∧ r.size_score.raspberry_pi ≤ 1) ∧
  (0 ≤ r.size_score.jetson_nano ∧ r.size_score.jetson_nano ≤ 1) ∧
  (0 ≤ r.size_score.desktop_pc ∧ r.size_score.desktop_pc ≤ 1) ∧
  (0 ≤ r.size_score.aws_server ∧ r.size_score.aws_server ≤ 1)

/-! ## A concrete successful request

A fully concrete environment in which the rating computation succeeds,
used to evaluate `rate_model` at one explicit input: the metrics
dictionary is empty (every `.get` takes its 0.0 default, which the
repository's tests accept), and the two clock reads are half a second
apart. -/

/-- The empty metrics dictionary. -/
def emptyMetrics : Metrics :=
  ⟨fun _ => none, fun _ => none⟩

/-- A concrete request environment: valid token, one model artifact
under every id, all accesses succeed, elapsed wall-clock time 0.5
seconds. -/
def envC : Env :=
  ⟨some "token", fun _ => some ⟨"m", some "model", "u"⟩, false, false,
   fun _ => some (some "model"), fun _ _ => emptyMetrics, false, false,
   0, 1/2, "2025-01-01T00:00:00"⟩

/-- The rating that `envC` produces. -/
def ratC : ModelRatingR :=
  assemble "m" emptyMetrics (envC.t2 - envC.t1)

/-! ## Helper lemmas: size scorer -/

theorem size_score_of_eq_spec_step (s limit : ℚ) : size_score_of s limit = spec_step s limit := by
  unfold size_score_of spec_step
  rw [mul_comm (0.5 : ℚ) limit, mul_comm (0.8 : ℚ) limit, mul_comm (1.5 : ℚ) limit,
    mul_comm (2.0 : ℚ) limit, mul_comm (3.0 : ℚ) limit]

theorem size_score_of_bounds (s limit : ℚ) :
    0 ≤ size_score_of s limit ∧ size_score_of s limit ≤ 1 := by
  unfold size_score_of
  split_ifs <;> norm_num

set_option maxHeartbeats 2000000 in
theorem size_score_of_anti (limit : ℚ) {s1 s2 : ℚ} (h : s1 ≤ s2) :
    size_score_of s2 limit ≤ size_score_of s1 limit := by
  unfold size_score_of
  split_ifs <;> linarith

set_option maxHeartbeats 2000000 in
theorem size_score_of_mono_limit (s : ℚ) {l1 l2 : ℚ} (h : l1 ≤ l2) :
    size_score_of s l1 ≤ size_score_of s l2 := by
  unfold size_score_of
  split_ifs <;> linarith

/-! ## Claim C4 -/

/-- C4: for every estimated size `s` and every hardware class with
capacity limit `L`, the Size scorer's per-class score is exactly the
specification's step function (1.0 if s ≤ 0.5·L, 0.9 if s ≤ 0.8·L, 0.8
if s ≤ L, 0.6 if s ≤ 1.5·L, 0.5 if s ≤ 2·L, 0.4 if s ≤ 3·L, else 0.3),
evaluated against the four fixed limits raspberry_pi = 1.0,
jetson_nano = 4.0, desktop_pc = 16.0, aws_server = 64.0. -/
theorem claim_C4_size_step_function :
    (∀ s limit : ℚ, size_score_of s limit = spec_step s limit) ∧
    ∀ (info : Option ModelInfo) (fetch : Fetch (List FileItem)),
      size_calculate false info fetch =
        [("raspberry_pi", spec_step (estimate_model_size info fetch) 1.0),
         ("jetson_nano", spec_step (estimate_model_size info fetch) 4.0),
         ("desktop_pc", spec_step (estimate_model_size info fetch) 16.0),
         ("aws_server", spec_step (estimate_model_size info fetch) 64.0)] := by
  refine ⟨size_score_of_eq_spec_step, fun info fetch => ?_⟩
  simp [size_calculate, hardware_limits, size_score_of_eq_spec_step]

/-! ## Claim C8 -/

/-- C8: the Size scorer's per-class score is monotonic and
deterministic: for a fixed limit the score is non-increasing in the
estimated size, for a fixed estimated size it is non-decreasing in the
limit, and two calls with the same estimated size (and the same four
fixed limits) produce identical score maps. -/
theorem claim_C8_size_monotone_deterministic :
    (∀ (limit s1 s2 : ℚ), s1 ≤ s2 → size_score_of s2 limit ≤ size_score_of s1 limit) ∧
    (∀ (s l1 l2 : ℚ), l1 ≤ l2 → size_score_of s l1 ≤ size_score_of s l2) ∧
    ∀ (i1 i2 : Option ModelInfo) (f1 f2 : Fetch (List FileItem)),
      estimate_model_size i1 f1 = estimate_model_size i2 f2 →
      size_calculate false i1 f1 = size_calculate false i2 f2 := by
  refine ⟨fun limit s1 s2 h => size_score_of_anti limit h,
    fun s l1 l2 h => size_score_of_mono_limit s h,
    fun i1 i2 f1 f2 h => ?_⟩
  simp [size_calculate, h]

/-- Witness for C8 at concrete inputs. -/
theorem claim_C8_witness :
    size_score_of 13 1 ≤ size_score_of 0.5 1 ∧
    size_score_of 13 1 ≤ size_score_of 13 64 ∧
    size_calculate false none .miss = size_calculate false none .miss :=
  ⟨claim_C8_size_monotone_deterministic.1 1 0.5 13 (by norm_num),
   claim_C8_size_monotone_deterministic.2.1 13 1 64 (by norm_num),
   claim_C8_size_monotone_deterministic.2.2 none none .miss .miss rfl⟩

/-! ## Claim C5 -/

/-- C5: known-value size scenarios — estimated size 0.5 against the
fixed limits gives all four hardware scores 1.0; estimated size 13.0
gives a raspberry_pi score of at most 0.4 and an aws_server score of
1.0; and a name containing "7b" with no file-size data available from
the file listing estimates exactly 13.0 size-units. -/
theorem claim_C5_size_known_values :
    (∀ (i : ModelInfo) (fetch : Fetch (List FileItem)),
      fetch ≠ .err →
      (match fetch with | .ok items => totalSize items | _ => 0) = 0 →
      strIn "7b" (lowerS i.name) = true →
      estimate_model_size (some i) fetch = 13.0) ∧
    (∀ (info : Option ModelInfo) (fetch : Fetch (List FileItem)),
      estimate_model_size info fetch = 0.5 →
      size_calculate false info fetch =
        [("raspberry_pi", 1.0), ("jetson_nano", 1.0), ("desktop_pc", 1.0), ("aws_server", 1.0)]) ∧
    ∀ (info : Option ModelInfo) (fetch : Fetch (List FileItem)),
      estimate_model_size info fetch = 13.0 →
      size_calculate false info fetch =
        [("raspberry_pi", 0.3), ("jetson_nano", 0.3), ("desktop_pc", 0.8), ("aws_server", 1.0)] ∧
      (0.3 : ℚ) ≤ 0.4 := by
  refine ⟨fun i fetch hne hz h7 => ?_, fun info fetch h => ?_, fun info fetch h => ?_⟩
  · cases fetch with
    | err => exact absurd rfl hne
    | miss => simp [estimate_model_size, h7]
    | ok items =>
      simp only [estimate_model_size] at hz ⊢
      simp [hz, h7]
  · norm_num [size_calculate, hardware_limits, size_score_of, h]
  · norm_num [size_calculate, hardware_limits, size_score_of, h]

/-- Witness for C5 at concrete inputs: a "7b" name with an empty file
listing estimates 13.0; a "small" name estimates 0.5 and scores 1.0 on
every class; the 13.0 estimate scores 0.3 on raspberry_pi and 1.0 on
aws_server. -/
theorem claim_C5_witness :
    estimate_model_size
      (some ⟨"x7b", none, none, none, none, none, none, none, none⟩) .miss = 13.0 ∧
    size_calculate false
      (some ⟨"small", none, none, none, none, none, none, none, none⟩) .miss =
      [("raspberry_pi", 1.0), ("jetson_nano", 1.0), ("desktop_pc", 1.0), ("aws_server", 1.0)] ∧
    (size_calculate false
      (some ⟨"x7b", none, none, none, none, none, none, none, none⟩) .miss =
      [("raspberry_pi", 0.3), ("jetson_nano", 0.3), ("desktop_pc", 0.8), ("aws_server", 1.0)] ∧
      (0.3 : ℚ) ≤ 0.4) := by
  have h7 : estimate_model_size
      (some ⟨"x7b", none, none, none, none, none, none, none, none⟩) .miss = 13.0 :=
    claim_C5_size_known_values.1 _ .miss (by simp) rfl (by decide)
  have hb1 : (strIn "7b" (lowerS "small") || strIn "7-b" (lowerS "small")) = false := by decide
  have hb2 : (strIn "13b" (lowerS "small") || strIn "13-b" (lowerS "small")) = false := by decide
  have hb3 : (strIn "70b" (lowerS "small") || strIn "70-b" (lowerS "small")) = false := by decide
  have hb4 : (strIn "3b" (lowerS "small") || strIn "3-b" (lowerS "small")) = false := by decide
  have hb5 : (strIn "1b" (lowerS "small") || strIn "1-b" (lowerS "small")) = false := by decide
  have hb6 : strIn "small" (lowerS "small") = true := by decide
  have hsm : estimate_model_size
      (some ⟨"small", none, none, none, none, none, none, none, none⟩) .miss = 0.5 := by
    simp [estimate_model_size, hb1, hb2, hb3, hb4, hb5, hb6]
  exact ⟨h7, claim_C5_size_known_values.2.1 _ .miss hsm,
    claim_C5_size_known_values.2.2 _ .miss h7⟩

/-! ## Helper lemmas: license scorer -/

/-- The finite set of values the license scorer can return. -/
def license_values : List ℚ := [0.3, 0.5, 0.6, 0.7, 0.8, 0.9, 1.0]

theorem find_known_mem :
    ∀ (l : List (String × ℚ)) (key : String) (v : ℚ),
      find_known l key = some v → v ∈ l.map Prod.snd := by
  intro l
  induction l with
  | nil => intro key v h; simp [find_known] at h
  | cons hd tl ih =>
    intro key v h
    unfold find_known at h
    by_cases hs : strIn hd.1 key = true
    · rw [if_pos hs] at h
      simp at h
      simp [h]
    · rw [if_neg hs] at h
      simp [ih key v h]

theorem license_table_values (v : ℚ) (hv : v ∈ license_scores.map Prod.snd) :
    v ∈ license_values := by
  have hs : license_scores.map Prod.snd =
      [0.9, 0.9, 1.0, 1.0, 1.0, 0.8, 0.3, 0.3, 0.7, 0.6, 0.5, 0.5] := rfl
  rw [hs] at hv
  fin_cases hv <;> norm_num [license_values]

theorem license_values_bounds (v : ℚ) (hv : v ∈ license_values) : 0.3 ≤ v ∧ v ≤ 1 := by
  fin_cases hv <;> norm_num

theorem license_of_key_mem (key : String) : license_of_key key ∈ license_values := by
  unfold license_of_key
  cases hfk : find_known license_scores key with
  | some v => exact license_table_values v (find_known_mem _ _ _ hfk)
  | none => split_ifs <;> norm_num [license_values]

theorem license_calculate_mem (info : Option ModelInfo) (fetch : Option String)
    (ex1 ex2 : String → Option String) :
    license_calculate info fetch ex1 ex2 ∈ license_values := by
  cases info with
  | none => norm_num [license_calculate, license_values]
  | some i =>
    simp only [license_calculate]
    by_cases h1 : falsyS (if falsyS i.api_license = true then
        parse_license_from_readme fetch ex1 ex2 else i.api_license) = true
    · rw [if_pos h1]; norm_num [license_values]
    · rw [if_neg h1]; exact license_of_key_mem _

theorem license_api_eval (i : ModelInfo) (s : String) (v : ℚ) (fetch : Option String)
    (ex1 ex2 : String → Option String) (hapi : i.api_license = some s)
    (hne : falsyS (some s) = false)
    (h : license_of_key (trimS (lowerS s)) = v) :
    license_calculate (some i) fetch ex1 ex2 = v := by
  simp [license_calculate, hapi, hne, h]

/-! ## Claim C3 -/

/-- C3: with structured-metadata license identifier "apache-2.0" the
License scorer returns the fixed table's apache value 0.9, which lies in
[0.9, 1.0]; with "gpl-3.0" it returns exactly 0.3; and every other
identifier of the fixed table (mit, bsd-2/3-clause, lgpl-2.1, lgpl-3.0,
gpl-2.0, cc-by-4.0, cc-by-sa-4.0) maps to its listed score. -/
theorem claim_C3_license_known_values :
    ∀ (i : ModelInfo) (fetch : Option String) (ex1 ex2 : String → Option String),
      (i.api_license = some "apache-2.0" → license_calculate (some i) fetch ex1 ex2 = 0.9) ∧
      (0.9 : ℚ) ∈ Set.Icc (0.9 : ℚ) 1.0 ∧
      (i.api_license = some "gpl-3.0" → license_calculate (some i) fetch ex1 ex2 = 0.3) ∧
      (i.api_license = some "mit" → license_calculate (some i) fetch ex1 ex2 = 0.9) ∧
      (i.api_license = some "bsd-2-clause" → license_calculate (some i) fetch ex1 ex2 = 1.0) ∧
      (i.api_license = some "bsd-3-clause" → license_calculate (some i) fetch ex1 ex2 = 1.0) ∧
      (i.api_license = some "lgpl-2.1" → license_calculate (some i) fetch ex1 ex2 = 1.0) ∧
      (i.api_license = some "lgpl-3.0" → license_calculate (some i) fetch ex1 ex2 = 0.8) ∧
      (i.api_license = some "gpl-2.0" → license_calculate (some i) fetch ex1 ex2 = 0.3) ∧
      (i.api_license = some "cc-by-4.0" → license_calculate (some i) fetch ex1 ex2 = 0.7) ∧
      (i.api_license = some "cc-by-sa-4.0" → license_calculate (some i) fetch ex1 ex2 = 0.6) := by
  intro i fetch ex1 ex2
  refine ⟨fun h => license_api_eval i _ _ _ _ _ h (by decide) rfl,
    by constructor <;> norm_num,
    fun h => license_api_eval i _ _ _ _ _ h (by decide) rfl,
    fun h => license_api_eval i _ _ _ _ _ h (by decide) rfl,
    fun h => license_api_eval i _ _ _ _ _ h (by decide) rfl,
    fun h => license_api_eval i _ _ _ _ _ h (by decide) rfl,
    fun h => license_api_eval i _ _ _ _ _ h (by decide) rfl,
    fun h => license_api_eval i _ _ _ _ _ h (by decide) rfl,
    fun h => license_api_eval i _ _ _ _ _ h (by decide) rfl,
    fun h => license_api_eval i _ _ _ _ _ h (by decide) rfl,
    fun h => license_api_eval i _ _ _ _ _ h (by decide) rfl⟩

/-- A descriptor whose structured metadata carries the given license. -/
def withLicense (s : String) : ModelInfo :=
  ⟨"m", some s, none, none, none, none, none, none, none⟩

/-- Witness for C3: each table identifier evaluated at a concrete
descriptor. -/
theorem claim_C3_witness :
    license_calculate (some (withLicense "apache-2.0")) none (fun _ => none) (fun _ => none) = 0.9 ∧
    license_calculate (some (withLicense "gpl-3.0")) none (fun _ => none) (fun _ => none) = 0.3 ∧
    license_calculate (some (withLicense "mit")) none (fun _ => none) (fun _ => none) = 0.9 ∧
    license_calculate (some (withLicense "bsd-2-clause")) none (fun _ => none) (fun _ => none) = 1.0 ∧
    license_calculate (some (withLicense "bsd-3-clause")) none (fun _ => none) (fun _ => none) = 1.0 ∧
    license_calculate (some (withLicense "lgpl-2.1")) none (fun _ => none) (fun _ => none) = 1.0 ∧
    license_calculate (some (withLicense "lgpl-3.0")) none (fun _ => none) (fun _ => none) = 0.8 ∧
    license_calculate (some (withLicense "gpl-2.0")) none (fun _ => none) (fun _ => none) = 0.3 ∧
    license_calculate (some (withLicense "cc-by-4.0")) none (fun _ => none) (fun _ => none) = 0.7 ∧
    license_calculate (some (withLicense "cc-by-sa-4.0")) none (fun _ => none) (fun _ => none) = 0.6 :=
  ⟨(claim_C3_license_known_values _ none _ _).1 rfl,
   (claim_C3_license_known_values _ none _ _).2.2.1 rfl,
   (claim_C3_license_known_values _ none _ _).2.2.2.1 rfl,
   (claim_C3_license_known_values _ none _ _).2.2.2.2.1 rfl,
   (claim_C3_license_known_values _ none _ _).2.2.2.2.2.1 rfl,
   (claim_C3_license_known_values _ none _ _).2.2.2.2.2.2.1 rfl,
   (claim_C3_license_known_values _ none _ _).2.2.2.2.2.2.2.1 rfl,
   (claim_C3_license_known_values _ none _ _).2.2.2.2.2.2.2.2.1 rfl,
   (claim_C3_license_known_values _ none _ _).2.2.2.2.2.2.2.2.2.1 rfl,
   (claim_C3_license_known_values _ none _ _).2.2.2.2.2.2.2.2.2.2 rfl⟩

/-! ## Claim C10 -/

/-- C10: the License scorer's return value always belongs to
{0.3, 0.5, 0.6, 0.7, 0.8, 0.9, 1.0} — in particular it is never 0 and
never below 0.3 — and every no-information path (no identifier in
metadata or README, README fetch failure, or an internal exception)
returns exactly 0.5. -/
theorem claim_C10_license_value_set :
    (∀ (info : Option ModelInfo) (fetch : Option String) (ex1 ex2 : String → Option String),
      license_calculate info fetch ex1 ex2 ∈ license_values ∧
      0.3 ≤ license_calculate info fetch ex1 ex2) ∧
    (∀ (fetch : Option String) (ex1 ex2 : String → Option String),
      license_calculate none fetch ex1 ex2 = 0.5) ∧
    (∀ (i : ModelInfo) (ex1 ex2 : String → Option String),
      falsyS i.api_license = true →
      license_calculate (some i) none ex1 ex2 = 0.5) ∧
    ∀ (i : ModelInfo) (content : String),
      falsyS i.api_license = true →
      license_calculate (some i) (some content) (fun _ => none) (fun _ => none) = 0.5 := by
  refine ⟨fun info fetch ex1 ex2 => ?_, fun fetch ex1 ex2 => rfl,
    fun i ex1 ex2 h => ?_, fun i content h => ?_⟩
  · have hm := license_calculate_mem info fetch ex1 ex2
    exact ⟨hm, (license_values_bounds _ hm).1⟩
  · have hp : parse_license_from_readme (none : Option String) ex1 ex2 = none := rfl
    simp [license_calculate, h, hp, show falsyS (none : Option String) = true from rfl]
  · have hp : parse_license_from_readme (some content)
        (fun _ => none) (fun _ => none) = none := rfl
    simp [license_calculate, h, hp, show falsyS (none : Option String) = true from rfl]

/-- Witness for C10: a descriptor with no license information anywhere
scores 0.5, which is in the value set. -/
theorem claim_C10_witness :
    (license_calculate (some ⟨"m", none, none, none, none, none, none, none, none⟩)
        none (fun _ => none) (fun _ => none) ∈ license_values ∧
      0.3 ≤ license_calculate (some ⟨"m", none, none, none, none, none, none, none, none⟩)
        none (fun _ => none) (fun _ => none)) ∧
    license_calculate none none (fun _ => none) (fun _ => none) = 0.5 ∧
    license_calculate (some ⟨"m", none, none, none, none, none, none, none, none⟩)
      none (fun _ => none) (fun _ => none) = 0.5 ∧
    license_calculate (some ⟨"m", some "", none, none, none, none, none, none, none⟩)
      (some "no identifier here") (fun _ => none) (fun _ => none) = 0.5 :=
  ⟨claim_C10_license_value_set.1 _ none _ _,
   claim_C10_license_value_set.2.1 none _ _,
   claim_C10_license_value_set.2.2.1 ⟨"m", none, none, none, none, none, none, none, none⟩
     _ _ rfl,
   claim_C10_license_value_set.2.2.2 ⟨"m", some "", none, none, none, none, none, none, none⟩
     "no identifier here" (by decide)⟩

/-! ## Helper lemmas: dataset quality -/

theorem dataset_quality_calculate_bounds (crash : Bool) (fd fp fk : Option String)
    (sizeHit : String → Bool) :
    0.5 ≤ dataset_quality_calculate crash fd fp fk sizeHit ∧
    dataset_quality_calculate crash fd fp fk sizeHit ≤ 1 := by
  cases crash with
  | true => norm_num [dataset_quality_calculate]
  | false =>
    have h : dataset_quality_calculate false fd fp fk sizeHit =
        min 1.0 (max 0.5 (0.4 + check_dataset_documentation fd sizeHit * 0.3
          + check_preprocessing_info fp * 0.2 + check_known_datasets fk * 0.2)) := rfl
    rw [h]
    constructor
    · exact le_min (by norm_num) (le_max_left _ _)
    · exact le_trans (min_le_left _ _) (by norm_num)

/-! ## Claim C9 -/

/-- C9: for every input, the DatasetQuality scorer's result lies in
[0.5, 1.0] — the normal path clamps the weighted sum to at least 0.5 and
at most 1.0, and the exception fallback 0.6 also lies in that
interval. -/
theorem claim_C9_dataset_quality_floor :
    (∀ (crash : Bool) (fd fp fk : Option String) (sizeHit : String → Bool),
      0.5 ≤ dataset_quality_calculate crash fd fp fk sizeHit ∧
      dataset_quality_calculate crash fd fp fk sizeHit ≤ 1) ∧
    ∀ (fd fp fk : Option String) (sizeHit : String → Bool),
      dataset_quality_calculate true fd fp fk sizeHit = 0.6 ∧
      (0.5 : ℚ) ≤ 0.6 ∧ (0.6 : ℚ) ≤ 1 :=
  ⟨dataset_quality_calculate_bounds,
   fun fd fp fk sizeHit => ⟨rfl, by norm_num, by norm_num⟩⟩

/-! ## Helper lemmas: scorer ranges -/

theorem license_calculate_bounds (info : Option ModelInfo) (fetch : Option String)
    (ex1 ex2 : String → Option String) :
    0 ≤ license_calculate info fetch ex1 ex2 ∧ license_calculate info fetch ex1 ex2 ≤ 1 := by
  have h := license_values_bounds _ (license_calculate_mem info fetch ex1 ex2)
  exact ⟨by linarith [h.1], h.2⟩

theorem check_recent_activity_bounds (lm : Option String) (pd : String → Option Int) :
    0.2 ≤ check_recent_activity lm pd ∧ check_recent_activity lm pd ≤ 1 := by
  cases lm with
  | none => norm_num [check_recent_activity]
  | some s =>
    cases hpd : pd s with
    | none => norm_num [check_recent_activity, hpd]
    | some d =>
      simp only [check_recent_activity, hpd]
      split_ifs <;> norm_num

theorem known_orgs_values (v : ℚ) (hv : v ∈ known_orgs.map Prod.snd) : 0 ≤ v ∧ v ≤ 1 := by
  have hs : known_orgs.map Prod.snd = [0.9, 0.9, 0.9, 0.9, 0.9, 0.8, 0.8, 0.8, 0.8, 0.7] := rfl
  rw [hs] at hv
  fin_cases hv <;> norm_num

theorem analyze_maintainers_bounds (name : String) :
    0 ≤ analyze_maintainers name ∧ analyze_maintainers name ≤ 1 := by
  simp only [analyze_maintainers]
  split_ifs with h
  · norm_num
  · cases hfk : find_known known_orgs (lowerS ((splitS '/' name).headD "")) with
    | none => simp only [hfk]; norm_num
    | some v => simp only [hfk]; exact known_orgs_values v (find_known_mem _ _ _ hfk)

theorem assess_community_bounds (likes downloads : Option Nat) :
    0.4 ≤ assess_community likes downloads ∧ assess_community likes downloads ≤ 1 := by
  simp only [assess_community]
  split_ifs <;> norm_num

theorem busfactor_calculate_bounds (info : Option ModelInfo) (pd : String → Option Int) :
    0 ≤ busfactor_calculate info pd ∧ busfactor_calculate info pd ≤ 1 := by
  cases info with
  | none => norm_num [busfactor_calculate]
  | some i =>
    have h1 := check_recent_activity_bounds i.last_modified pd
    have h2 := analyze_maintainers_bounds i.name
    have h3 := assess_community_bounds i.likes i.downloads
    have hb : (0.4 : ℚ) ≤ (if isKnownModel (lowerS i.name) = true then (0.6 : ℚ) else 0.4) := by
      split_ifs <;> norm_num
    unfold busfactor_calculate
    constructor
    · exact le_min (by norm_num) (by linarith [h1.1, h2.1, h3.1])
    · exact le_trans (min_le_left _ _) (by norm_num)

theorem analyze_readme_bounds (fetch : Option String) :
    0 ≤ analyze_readme fetch ∧ analyze_readme fetch ≤ 1 := by
  cases fetch with
  | none => norm_num [analyze_readme]
  | some raw =>
    simp only [analyze_readme]
    constructor
    · refine le_min (by norm_num) ?_
      refine add_nonneg (add_nonneg (add_nonneg (add_nonneg (add_nonneg ?_ ?_) ?_) ?_) ?_) ?_ <;>
        split_ifs <;> norm_num
    · exact le_trans (min_le_left _ _) (by norm_num)

theorem exampleFileWeight_nonneg (item : FileItem) : 0 ≤ exampleFileWeight item := by
  cases hp : item.path with
  | none => norm_num [exampleFileWeight, hp]
  | some p =>
    simp only [exampleFileWeight, hp]
    split_ifs <;> norm_num

theorem check_examples_bounds (fetch : Fetch (List FileItem)) :
    0 ≤ check_examples fetch ∧ check_examples fetch ≤ 1 := by
  cases fetch with
  | err => norm_num [check_examples]
  | miss => norm_num [check_examples]
  | ok items =>
    simp only [check_examples]
    constructor
    · refine le_min (by norm_num) (mul_nonneg ?_ (by norm_num))
      exact List.sum_nonneg fun x hx => by
        obtain ⟨it, _, rfl⟩ := List.mem_map.mp hx
        exact exampleFileWeight_nonneg it
    · exact le_trans (min_le_left _ _) (by norm_num)

theorem analyze_model_card_bounds (i : ModelInfo) :
    0 ≤ analyze_model_card i ∧ analyze_model_card i ≤ 1 := by
  simp only [analyze_model_card]
  constructor
  · refine le_min (by norm_num) ?_
    refine add_nonneg (add_nonneg (add_nonneg ?_ ?_) ?_) ?_ <;> split_ifs <;> norm_num
  · exact le_trans (min_le_left _ _) (by norm_num)

theorem calculate_popularity_score_bounds (likes downloads : Option Nat) (sqrtF : ℚ → ℚ)
    (hs : ∀ q, 0 ≤ q → 0 ≤ sqrtF q) :
    0 ≤ calculate_popularity_score likes downloads sqrtF ∧
    calculate_popularity_score likes downloads sqrtF ≤ 1 := by
  simp only [calculate_popularity_score]
  have hd : (0 : ℚ) ≤ (downloads.getD 0 : ℚ) / 10000 := by positivity
  have hl : (0 : ℚ) ≤ (likes.getD 0 : ℚ) / 100 := by positivity
  have h1 : 0 ≤ (if 0 < downloads.getD 0 then
        min 1.0 (sqrtF ((downloads.getD 0 : ℚ) / 10000)) else 0) ∧
      (if 0 < downloads.getD 0 then
        min 1.0 (sqrtF ((downloads.getD 0 : ℚ) / 10000)) else 0) ≤ 1 := by
    split_ifs
    · exact ⟨le_min (by norm_num) (hs _ hd), le_trans (min_le_left _ _) (by norm_num)⟩
    · norm_num
  have h2 : 0 ≤ (if 0 < likes.getD 0 then
        min 1.0 (sqrtF ((likes.getD 0 : ℚ) / 100)) else 0) ∧
      (if 0 < likes.getD 0 then
        min 1.0 (sqrtF ((likes.getD 0 : ℚ) / 100)) else 0) ≤ 1 := by
    split_ifs
    · exact ⟨le_min (by norm_num) (hs _ hl), le_trans (min_le_left _ _) (by norm_num)⟩
    · norm_num
  constructor
  · have := h1.1; have := h2.1; positivity
  · rw [div_le_one (by norm_num)]
    linarith [h1.2, h2.2]

theorem rampup_calculate_bounds (info : Option ModelInfo) (fetchReadme : Option String)
    (fetchFiles : Fetch (List FileItem)) (sqrtF : ℚ → ℚ)
    (hs : ∀ q, 0 ≤ q → 0 ≤ sqrtF q) :
    0 ≤ rampup_calculate info fetchReadme fetchFiles sqrtF ∧
    rampup_calculate info fetchReadme fetchFiles sqrtF ≤ 1 := by
  cases info with
  | none => norm_num [rampup_calculate]
  | some i =>
    have h1 := analyze_readme_bounds fetchReadme
    have h2 := check_examples_bounds fetchFiles
    have h3 := analyze_model_card_bounds i
    have h4 := calculate_popularity_score_bounds i.likes i.downloads sqrtF hs
    have hb : (0.4 : ℚ) ≤ (if isKnownModel (lowerS i.name) = true then (0.7 : ℚ) else 0.4) := by
      split_ifs <;> norm_num
    simp only [rampup_calculate]
    constructor
    · exact le_min (by norm_num) (by linarith [h1.1, h2.1, h3.1, h4.1])
    · exact le_trans (min_le_left _ _) (by norm_num)

theorem idxResultWeight_nonneg (r : IdxResult) : 0 ≤ idxResultWeight r := by
  cases hm : r.metricsLen with
  | none => norm_num [idxResultWeight, hm]
  | some n =>
    simp only [idxResultWeight, hm]
    exact le_min (by norm_num) (by positivity)

theorem idxEntryWeight_nonneg (e : IdxEntry) : 0 ≤ idxEntryWeight e := by
  simp only [idxEntryWeight]
  refine add_nonneg ?_ (by split_ifs <;> norm_num)
  cases hr : e.results with
  | none => simp only [hr]; norm_num
  | some rs =>
    simp only [hr]
    split_ifs
    · refine add_nonneg (by norm_num) (List.sum_nonneg fun x hx => ?_)
      obtain ⟨r, _, rfl⟩ := List.mem_map.mp hx
      exact idxResultWeight_nonneg r
    · norm_num

theorem analyze_model_index_bounds (mi : Option (List IdxEntry)) :
    0 ≤ analyze_model_index mi ∧ analyze_model_index mi ≤ 1 := by
  simp only [analyze_model_index]
  split_ifs
  · norm_num
  · constructor
    · refine le_min (by norm_num) (List.sum_nonneg fun x hx => ?_)
      obtain ⟨e, _, rfl⟩ := List.mem_map.mp hx
      exact idxEntryWeight_nonneg e
    · exact le_trans (min_le_left _ _) (by norm_num)

theorem analyze_readme_benchmarks_bounds (fetch : Option String)
    (numbersFound : String → Nat) :
    0 ≤ analyze_readme_benchmarks fetch numbersFound ∧
    analyze_readme_benchmarks fetch numbersFound ≤ 1 := by
  cases fetch with
  | none => norm_num [analyze_readme_benchmarks]
  | some raw =>
    simp only [analyze_readme_benchmarks]
    constructor
    · refine le_min (by norm_num) (add_nonneg ?_ (le_min (by norm_num) (by positivity)))
      split_ifs <;> norm_num
    · exact le_trans (min_le_left _ _) (by norm_num)

theorem analyze_tags_bounds (tags : Option (List String)) :
    0 ≤ analyze_tags tags ∧ analyze_tags tags ≤ 1 := by
  simp only [analyze_tags]
  split_ifs
  · norm_num
  · constructor
    · exact le_min (by norm_num) (le_trans (by norm_num) (le_max_left _ _))
    · exact le_trans (min_le_left _ _) (by norm_num)

theorem performance_calculate_bounds (info : Option ModelInfo) (fetchReadme : Option String)
    (numbersFound : String → Nat) :
    0 ≤ performance_calculate info fetchReadme numbersFound ∧
    performance_calculate info fetchReadme numbersFound ≤ 1 := by
  cases info with
  | none => norm_num [performance_calculate]
  | some i =>
    have h1 := analyze_model_index_bounds i.model_index
    have h2 := analyze_readme_benchmarks_bounds fetchReadme numbersFound
    have h3 := analyze_tags_bounds i.tags
    have hb : (0.3 : ℚ) ≤ (if isKnownModel (lowerS i.name) = true then (0.5 : ℚ) else 0.3) := by
      split_ifs <;> norm_num
    simp only [performance_calculate]
    constructor
    · exact le_min (by norm_num) (by linarith [h1.1, h2.1, h3.1])
    · exact le_trans (min_le_left _ _) (by norm_num)

theorem dataset_info_index_score_nonneg (mi : Option (List IdxEntry)) :
    0 ≤ dataset_info_index_score mi := by
  simp only [dataset_info_index_score]
  split_ifs <;> norm_num

theorem dataset_info_readme_score_nonneg (f : Fetch String) (dataSizeHit : String → Bool) :
    0 ≤ dataset_info_readme_score f dataSizeHit := by
  cases f with
  | err => norm_num [dataset_info_readme_score]
  | miss => norm_num [dataset_info_readme_score]
  | ok raw =>
    simp only [dataset_info_readme_score]
    refine add_nonneg (add_nonneg ?_ ?_) ?_ <;> split_ifs <;> norm_num

theorem check_dataset_info_bounds (mi : Option (List IdxEntry)) (fetch : Fetch String)
    (dataSizeHit : String → Bool) :
    0 ≤ check_dataset_info mi fetch dataSizeHit ∧ check_dataset_info mi fetch dataSizeHit ≤ 1 := by
  have hmin : ∀ f : Fetch String,
      0 ≤ min 1.0 (dataset_info_index_score mi + dataset_info_readme_score f dataSizeHit) ∧
      min 1.0 (dataset_info_index_score mi + dataset_info_readme_score f dataSizeHit) ≤ 1 :=
    fun f => ⟨le_min (by norm_num) (add_nonneg (dataset_info_index_score_nonneg mi)
        (dataset_info_readme_score_nonneg f dataSizeHit)),
      le_trans (min_le_left _ _) (by norm_num)⟩
  cases fetch with
  | err => norm_num [check_dataset_info]
  | miss => exact hmin .miss
  | ok raw => exact hmin (.ok raw)

theorem code_avail_files_score_nonneg (f : Fetch (List FileItem)) :
    0 ≤ code_avail_files_score f := by
  cases f with
  | err => norm_num [code_avail_files_score]
  | miss => norm_num [code_avail_files_score]
  | ok items =>
    simp only [code_avail_files_score]
    refine add_nonneg (add_nonneg ?_ ?_) ?_ <;> split_ifs <;> norm_num

theorem code_avail_readme_score_nonneg (r : Fetch String) :
    0 ≤ code_avail_readme_score r := by
  cases r with
  | err => norm_num [code_avail_readme_score]
  | miss => norm_num [code_avail_readme_score]
  | ok content =>
    simp only [code_avail_readme_score]
    refine add_nonneg ?_ ?_ <;> split_ifs <;> norm_num

theorem check_code_availability_bounds (files : Fetch (List FileItem)) (readme : Fetch String) :
    0 ≤ check_code_availability files readme ∧ check_code_availability files readme ≤ 1 := by
  have hmin : ∀ (f : Fetch (List FileItem)) (r : Fetch String),
      0 ≤ min 1.0 (code_avail_files_score f + code_avail_readme_score r) ∧
      min 1.0 (code_avail_files_score f + code_avail_readme_score r) ≤ 1 :=
    fun f r => ⟨le_min (by norm_num) (add_nonneg (code_avail_files_score_nonneg f)
        (code_avail_readme_score_nonneg r)),
      le_trans (min_le_left _ _) (by norm_num)⟩
  cases files with
  | err => norm_num [check_code_availability]
  | miss =>
    cases readme with
    | err => norm_num [check_code_availability]
    | miss => exact hmin .miss .miss
    | ok content => exact hmin .miss (.ok content)
  | ok items =>
    cases readme with
    | err => norm_num [check_code_availability]
    | miss => exact hmin (.ok items) .miss
    | ok content => exact hmin (.ok items) (.ok content)

theorem dataset_code_calculate_bounds (info : Option ModelInfo) (fetchReadme1 : Fetch String)
    (dataSizeHit : String → Bool) (fetchFiles : Fetch (List FileItem))
    (fetchReadme2 : Fetch String) :
    0 ≤ dataset_code_calculate info fetchReadme1 dataSizeHit fetchFiles fetchReadme2 ∧
    dataset_code_calculate info fetchReadme1 dataSizeHit fetchFiles fetchReadme2 ≤ 1 := by
  cases info with
  | none =>
    have h1 := check_dataset_info_bounds none .err dataSizeHit
    have h2 := check_code_availability_bounds .err .err
    simp only [dataset_code_calculate]
    constructor
    · exact le_min (by norm_num) (by linarith [h1.1, h2.1])
    · exact le_trans (min_le_left _ _) (by norm_num)
  | some i =>
    have h1 := check_dataset_info_bounds i.model_index fetchReadme1 dataSizeHit
    have h2 := check_code_availability_bounds fetchFiles fetchReadme2
    simp only [dataset_code_calculate]
    constructor
    · exact le_min (by norm_num) (by linarith [h1.1, h2.1])
    · exact le_trans (min_le_left _ _) (by norm_num)

theorem standardFileWeight_nonneg (item : FileItem) : 0 ≤ standardFileWeight item := by
  cases hp : item.path with
  | none => norm_num [standardFileWeight, hp]
  | some p =>
    simp only [standardFileWeight, hp]
    cases hf : standard_files.find? fun q => q.1 == lowerS (basenameS p) with
    | none => simp only [hf]; norm_num
    | some q =>
      simp only [hf]
      have hq : q ∈ standard_files := List.mem_of_find?_eq_some hf
      have hq2 : q.2 ∈ standard_files.map Prod.snd := List.mem_map_of_mem _ hq
      have hs : standard_files.map Prod.snd = [0.1, 0.1, 0.1, 0.1, 0.1, 0.1] := rfl
      rw [hs] at hq2
      have hq3 : q.2 = 0.1 := by simpa using hq2
      rw [hq3]
      norm_num

theorem check_code_structure_bounds (fetch : Option (List FileItem)) :
    0 ≤ check_code_structure fetch ∧ check_code_structure fetch ≤ 1 := by
  cases fetch with
  | none => norm_num [check_code_structure]
  | some items =>
    simp only [check_code_structure]
    constructor
    · refine le_min (by norm_num) ?_
      refine add_nonneg (add_nonneg (add_nonneg ?_ ?_) ?_) ?_
      · exact List.sum_nonneg fun x hx => by
          obtain ⟨it, _, rfl⟩ := List.mem_map.mp hx
          exact standardFileWeight_nonneg it
      all_goals split_ifs <;> norm_num
    · exact le_trans (min_le_left _ _) (by norm_num)

theorem check_code_documentation_bounds (fetch : Option (List FileItem))
    (pyFetch : String → Option String) :
    0 ≤ check_code_documentation fetch pyFetch ∧ check_code_documentation fetch pyFetch ≤ 1 := by
  cases fetch with
  | none => norm_num [check_code_documentation]
  | some items =>
    simp only [check_code_documentation]
    split_ifs with h1 h2
    · norm_num
    · norm_num
    · set fetched := ((items.filterMap FileItem.path).filter (endsWithS ".py")).take 3
        |>.filterMap pyFetch with hfetched
      have hck : 0 < fetched.length := Nat.pos_of_ne_zero h2
      have hdoc : (fetched.filter fun c => 2 ≤ docIndicators c).length ≤ fetched.length :=
        List.length_filter_le _ _
      constructor
      · refine le_trans (by norm_num) (le_max_left (0.4 : ℚ) _)
      · refine max_le (by norm_num) ?_
        rw [div_le_one (by exact_mod_cast hck)]
        exact_mod_cast hdoc

theorem check_best_practices_bounds (fetch : Fetch String) :
    0 ≤ check_best_practices fetch ∧ check_best_practices fetch ≤ 1 := by
  cases fetch with
  | err => norm_num [check_best_practices]
  | miss =>
    refine ⟨le_min (by norm_num) (by norm_num), le_trans (min_le_left _ _) (by norm_num)⟩
  | ok raw =>
    simp only [check_best_practices]
    constructor
    · refine le_min (by norm_num) ?_
      refine add_nonneg (add_nonneg (add_nonneg (le_min (by norm_num) (by positivity)) ?_) ?_) ?_ <;>
        split_ifs <;> norm_num
    · exact le_trans (min_le_left _ _) (by norm_num)

theorem code_quality_calculate_bounds (info : Option ModelInfo)
    (fetchFiles : Option (List FileItem)) (pyFetch : String → Option String)
    (fetchFilesDoc : Option (List FileItem)) (fetchReadme : Fetch String) :
    0 ≤ code_quality_calculate info fetchFiles pyFetch fetchFilesDoc fetchReadme ∧
    code_quality_calculate info fetchFiles pyFetch fetchFilesDoc fetchReadme ≤ 1 := by
  cases info with
  | none => norm_num [code_quality_calculate]
  | some i =>
    have h1 := check_code_structure_bounds fetchFiles
    have h2 := check_code_documentation_bounds fetchFilesDoc pyFetch
    have h3 := check_best_practices_bounds fetchReadme
    have hb : (0.3 : ℚ) ≤ (if isKnownModel (lowerS i.name) = true then (0.5 : ℚ) else 0.3) := by
      split_ifs <;> norm_num
    simp only [code_quality_calculate]
    constructor
    · exact le_min (by norm_num) (by linarith [h1.1, h2.1, h3.1])
    · exact le_trans (min_le_left _ _) (by norm_num)

theorem size_calculate_entry_bounds (crash : Bool) (info : Option ModelInfo)
    (fetch : Fetch (List FileItem)) (p : String × ℚ)
    (hp : p ∈ size_calculate crash info fetch) : 0 ≤ p.2 ∧ p.2 ≤ 1 := by
  simp only [size_calculate] at hp
  split_ifs at hp
  · obtain ⟨q, _, rfl⟩ := List.mem_map.mp hp
    norm_num
  · obtain ⟨q, _, rfl⟩ := List.mem_map.mp hp
    exact size_score_of_bounds _ _

/-! ## Claim C1 -/

/-- C1: for every input, including a `None`/invalid descriptor and every
behaviour of the outside world, each metric scorer's `calculate` returns
a score in [0,1] (for the Size scorer every one of the four
hardware-class entries is in [0,1]); in the embedding every scorer is a
total function, so no exception reaches the caller, and each failure
path returns its documented fallback (0.5 for License/BusFactor/RampUp/
PerformanceClaims/CodeQuality; 0.4 for DatasetAndCode, whose `None`
descriptor is caught by the two helpers' own `except`s at 0.4 each, the
outer 0.5 being unreachable; 0.6 for DatasetQuality; 0.7 per hardware
class for Size).  The RampUp clause assumes only that the environment's
square-root oracle is non-negative on non-negative inputs, as the float
`** 0.5` is. -/
theorem claim_C1_scorer_safety :
    (∀ (info : Option ModelInfo) (fetch : Option String) (ex1 ex2 : String → Option String),
      0 ≤ license_calculate info fetch ex1 ex2 ∧ license_calculate info fetch ex1 ex2 ≤ 1) ∧
    (∀ (info : Option ModelInfo) (pd : String → Option Int),
      0 ≤ busfactor_calculate info pd ∧ busfactor_calculate info pd ≤ 1) ∧
    (∀ (crash : Bool) (info : Option ModelInfo) (fetch : Fetch (List FileItem)) (p : String × ℚ),
      p ∈ size_calculate crash info fetch → 0 ≤ p.2 ∧ p.2 ≤ 1) ∧
    (∀ (info : Option ModelInfo) (fetchReadme : Option String)
      (fetchFiles : Fetch (List FileItem)) (sqrtF : ℚ → ℚ),
      (∀ q, 0 ≤ q → 0 ≤ sqrtF q) →
      0 ≤ rampup_calculate info fetchReadme fetchFiles sqrtF ∧
      rampup_calculate info fetchReadme fetchFiles sqrtF ≤ 1) ∧
    (∀ (info : Option ModelInfo) (fetchReadme : Option String) (numbersFound : String → Nat),
      0 ≤ performance_calculate info fetchReadme numbersFound ∧
      performance_calculate info fetchReadme numbersFound ≤ 1) ∧
    (∀ (info : Option ModelInfo) (f1 : Fetch String) (hit : String → Bool)
      (ff : Fetch (List FileItem)) (f2 : Fetch String),
      0 ≤ dataset_code_calculate info f1 hit ff f2 ∧
      dataset_code_calculate info f1 hit ff f2 ≤ 1) ∧
    (∀ (crash : Bool) (fd fp fk : Option String) (sizeHit : String → Bool),
      0 ≤ dataset_quality_calculate crash fd fp fk sizeHit ∧
      dataset_quality_calculate crash fd fp fk sizeHit ≤ 1) ∧
    (∀ (info : Option ModelInfo) (ff : Option (List FileItem)) (pf : String → Option String)
      (fd : Option (List FileItem)) (fr : Fetch String),
      0 ≤ code_quality_calculate info ff pf fd fr ∧
      code_quality_calculate info ff pf fd fr ≤ 1) ∧
    (∀ (fetch : Option String) (ex1 ex2 : String → Option String),
      license_calculate none fetch ex1 ex2 = 0.5) ∧
    (∀ pd : String → Option Int, busfactor_calculate none pd = 0.5) ∧
    (∀ (info : Option ModelInfo) (fetch : Fetch (List FileItem)),
      size_calculate true info fetch =
        [("raspberry_pi", 0.7), ("jetson_nano", 0.7), ("desktop_pc", 0.7), ("aws_server", 0.7)]) ∧
    (∀ (fr : Option String) (ff : Fetch (List FileItem)) (sq : ℚ → ℚ),
      rampup_calculate none fr ff sq = 0.5) ∧
    (∀ (fr : Option String) (nf : String → Nat), performance_calculate none fr nf = 0.5) ∧
    (∀ (f1 : Fetch String) (hit : String → Bool) (ff : Fetch (List FileItem)) (f2 : Fetch String),
      dataset_code_calculate none f1 hit ff f2 = 0.4) ∧
    (∀ (fd fp fk : Option String) (sizeHit : String → Bool),
      dataset_quality_calculate true fd fp fk sizeHit = 0.6) ∧
    ∀ (ff : Option (List FileItem)) (pf : String → Option String)
      (fd : Option (List FileItem)) (fr : Fetch String),
      code_quality_calculate none ff pf fd fr = 0.5 :=
  ⟨license_calculate_bounds, busfactor_calculate_bounds, size_calculate_entry_bounds,
   fun info fr ff sq hs => rampup_calculate_bounds info fr ff sq hs,
   performance_calculate_bounds, dataset_code_calculate_bounds,
   fun crash fd fp fk sizeHit =>
     have h := dataset_quality_calculate_bounds crash fd fp fk sizeHit
     ⟨by linarith [h.1], h.2⟩,
   code_quality_calculate_bounds,
   fun _ _ _ => rfl, fun _ => rfl, fun _ _ => rfl, fun _ _ _ => rfl,
   fun _ _ => rfl,
   fun _ _ _ _ => by
     norm_num [dataset_code_calculate, check_dataset_info, check_code_availability, min_def],
   fun _ _ _ _ => rfl, fun _ _ _ _ => rfl⟩

/-- Witness for C1: the clauses with hypotheses evaluated at concrete
inputs — a size-map entry produced for a `None` descriptor, and the
RampUp scorer with the identity as square-root oracle. -/
theorem claim_C1_witness :
    (0 ≤ (("raspberry_pi", (0.5 : ℚ)) : String × ℚ).2 ∧
      (("raspberry_pi", (0.5 : ℚ)) : String × ℚ).2 ≤ 1) ∧
    (0 ≤ rampup_calculate none none .miss (fun q => q) ∧
      rampup_calculate none none .miss (fun q => q) ≤ 1) := by
  have hlist : size_calculate false none .miss =
      [("raspberry_pi", 0.5), ("jetson_nano", 1.0), ("desktop_pc", 1.0), ("aws_server", 1.0)] := by
    norm_num [size_calculate, hardware_limits, size_score_of, estimate_model_size]
  have hmem : (("raspberry_pi", (0.5 : ℚ)) : String × ℚ) ∈ size_calculate false none .miss := by
    rw [hlist]
    exact List.mem_cons_self _ _
  exact ⟨claim_C1_scorer_safety.2.2.1 false none .miss _ hmem,
    claim_C1_scorer_safety.2.2.2.1 none none .miss (fun q => q) (fun q hq => hq)⟩

/-! ## Claim C2 -/

/-- C2: when a Rating for the artifact identity is already cached (and
the request passes the auth/existence/type checks), `rate_model` returns
the cached Rating unchanged, leaves the table unchanged, and performs
zero metrics-calculator invocations — hence zero scorer calls; and on
the computing path the complete assembled Rating is written to the cache
keyed by the artifact identity, the stored record holding exactly the
returned Rating. -/
theorem claim_C2_cache_at_most_once :
    (∀ (env : Env) (ratings : String → Option Stored) (id : String) (art : Artifact)
      (st : Stored),
      falsyS env.auth = false → env.artifactsFail = false →
      env.artifacts id = some art → art.atype = some "model" →
      env.ratingsGetFail = false → ratings id = some st →
      rate_model env ratings id = (.ok st.rating, ratings, 0)) ∧
    ∀ (env : Env) (ratings : String → Option Stored) (id : String) (art : Artifact),
      falsyS env.auth = false → env.artifactsFail = false →
      env.artifacts id = some art → art.atype = some "model" →
      env.ratingsGetFail = false → ratings id = none →
      env.parseType art.url = some (some "model") →
      env.calcFail = false → env.putFail = false →
      rate_model env ratings id =
        (.ok (assemble art.name (env.calcM art.name art.url) (env.t2 - env.t1)),
         updateT ratings id
           ⟨assemble art.name (env.calcM art.name art.url) (env.t2 - env.t1), id, env.now⟩, 1) ∧
      updateT ratings id
          ⟨assemble art.name (env.calcM art.name art.url) (env.t2 - env.t1), id, env.now⟩ id =
        some ⟨assemble art.name (env.calcM art.name art.url) (env.t2 - env.t1), id, env.now⟩ := by
  constructor
  · intro env ratings id art st hA hAF hart htype hRF hcache
    simp [rate_model, hA, hAF, hart, htype, hRF, hcache]
  · intro env ratings id art hA hAF hart htype hRF hcache hparse hCF hPF
    constructor
    · simp [rate_model, hA, hAF, hart, htype, hRF, hcache, hparse, hCF, hPF]
    · simp [updateT]

/-- Witness for C2: a concrete cached request is served from the cache
with zero calculator invocations, and a concrete uncached request writes
the full Rating under its artifact id. -/
theorem claim_C2_witness :
    rate_model envC
        (fun _ => some ⟨ratC, "a", "T"⟩) "a" =
      (.ok ratC, (fun _ => some ⟨ratC, "a", "T"⟩), 0) ∧
    rate_model envC (fun _ => none) "a" =
      (.ok (assemble "m" (envC.calcM "m" "u") (envC.t2 - envC.t1)),
       updateT (fun _ => none) "a"
         ⟨assemble "m" (envC.calcM "m" "u") (envC.t2 - envC.t1), "a", envC.now⟩, 1) ∧
    updateT (fun _ => none) "a"
        ⟨assemble "m" (envC.calcM "m" "u") (envC.t2 - envC.t1), "a", envC.now⟩ "a" =
      some ⟨assemble "m" (envC.calcM "m" "u") (envC.t2 - envC.t1), "a", envC.now⟩ :=
  ⟨claim_C2_cache_at_most_once.1 envC _ "a" ⟨"m", some "model", "u"⟩ ⟨ratC, "a", "T"⟩
     rfl rfl rfl rfl rfl rfl,
   (claim_C2_cache_at_most_once.2 envC _ "a" ⟨"m", some "model", "u"⟩
     rfl rfl rfl rfl rfl rfl rfl rfl rfl).1,
   (claim_C2_cache_at_most_once.2 envC _ "a" ⟨"m", some "model", "u"⟩
     rfl rfl rfl rfl rfl rfl rfl rfl rfl).2⟩

/-! ## Claim C7 -/

/-- C7: `rate_model` either returns a Rating (a record with every field
populated, by construction of `assemble` and of the response type) or an
explicit error, and the cache write is atomic with respect to failure:
on every error outcome the ratings table is unchanged, and on a success
the table is unchanged (cache hit) or holds exactly the complete
returned Rating under the artifact identity — never a partial record. -/
theorem claim_C7_no_partial_rating :
    ∀ (env : Env) (ratings : String → Option Stored) (id : String),
      ((∃ e, (rate_model env ratings id).1 = .error e) ∧
        (rate_model env ratings id).2.1 = ratings) ∨
      ∃ r, (rate_model env ratings id).1 = .ok r ∧
        ((rate_model env ratings id).2.1 = ratings ∨
          (rate_model env ratings id).2.1 = updateT ratings id ⟨r, id, env.now⟩) := by
  intro env ratings id
  unfold rate_model
  by_cases h1 : falsyS env.auth = true
  · rw [if_pos h1]; exact Or.inl ⟨⟨.e403, rfl⟩, rfl⟩
  rw [if_neg h1]
  by_cases h2 : env.artifactsFail = true
  · rw [if_pos h2]; exact Or.inl ⟨⟨.e500, rfl⟩, rfl⟩
  rw [if_neg h2]
  cases hart : env.artifacts id with
  | none => exact Or.inl ⟨⟨.e404, rfl⟩, rfl⟩
  | some art =>
    dsimp only
    by_cases h3 : art.atype ≠ some "model"
    · rw [if_pos h3]; exact Or.inl ⟨⟨.badtype, rfl⟩, rfl⟩
    rw [if_neg h3]
    by_cases h4 : env.ratingsGetFail = true
    · rw [if_pos h4]; exact Or.inl ⟨⟨.e500, rfl⟩, rfl⟩
    rw [if_neg h4]
    cases hcache : ratings id with
    | some st => exact Or.inr ⟨st.rating, rfl, Or.inl rfl⟩
    | none =>
      dsimp only
      cases hparse : env.parseType art.url with
      | none => exact Or.inl ⟨⟨.badurl, rfl⟩, rfl⟩
      | some t =>
        dsimp only
        by_cases h5 : t ≠ some "model"
        · rw [if_pos h5]; exact Or.inl ⟨⟨.badurl, rfl⟩, rfl⟩
        rw [if_neg h5]
        by_cases h6 : env.calcFail = true
        · rw [if_pos h6]; exact Or.inl ⟨⟨.e500, rfl⟩, rfl⟩
        rw [if_neg h6]
        by_cases h7 : env.putFail = true
        · rw [if_pos h7]; exact Or.inl ⟨⟨.e500, rfl⟩, rfl⟩
        rw [if_neg h7]
        exact Or.inr ⟨assemble art.name (env.calcM art.name art.url) (env.t2 - env.t1),
          rfl, Or.inr rfl⟩

/-! ## Claim C6 -/

/-- C6: evaluation of the code at the failing input.  With a valid
request whose two `time.time()` reads are half a second apart,
`rate_model` succeeds and produces a Rating whose `net_score_latency`
is 1/2 — a fractional number of seconds, not an integer.  This
contradicts the claim (and the repository's own tests, which assert
`isinstance(latency, int)` for every `*_latency` field): `rating.py`
stores elapsed seconds as a float in `net_score_latency`. -/
theorem claim_C6_net_score_latency_fractional :
    (rate_model envC (fun _ => none) "a").1 = Except.ok ratC ∧
    ratC.net_score_latency = 1/2 ∧
    ¬ ∃ n : ℤ, ratC.net_score_latency = (n : ℚ) := by
  have h2 : ratC.net_score_latency = 1/2 := by
    show (1/2 : ℚ) - 0 = 1/2
    norm_num
  refine ⟨rfl, h2, ?_⟩
  rintro ⟨n, hn⟩
  rw [h2] at hn
  have h3 : ((2 * n : ℤ) : ℚ) = 1 := by push_cast; linarith
  have h4 : (2 * n : ℤ) = 1 := by exact_mod_cast h3
  omega

/-! ## Supporting fact for C6

The remainder of the claim is sound: under the spec-modelled calculator
contract (`MetricsOK`) and a monotone clock, every Rating `rate_model`
returns has non-negative latency fields and score fields in [0,1]; only
the integrality of `net_score_latency` fails. -/

theorem mget_score_ok (m : Metrics) (hm : MetricsOK m) (k : String) (hk : k ∈ scoreKeys) :
    0 ≤ mget m k ∧ mget m k ≤ 1 := by
  unfold mget
  cases h : m.scalars k with
  | none => norm_num
  | some v => exact hm.1 k hk v h

theorem mget_lat_ok (m : Metrics) (hm : MetricsOK m) (k : String) (hk : k ∈ latencyKeys) :
    0 ≤ mget m k := by
  unfold mget
  cases h : m.scalars k with
  | none => norm_num
  | some v => exact hm.2.1 k hk v h

theorem msize_ok (m : Metrics) (hm : MetricsOK m) (k : String) (hk : k ∈ sizeKeys) :
    0 ≤ msize m k ∧ msize m k ≤ 1 := by
  unfold msize
  cases h : m.size_scores k with
  | none => norm_num
  | some v => exact hm.2.2 k hk v h

theorem assemble_ok (nm : String) (m : Metrics) (lat : ℚ) (hm : MetricsOK m)
    (hl : 0 ≤ lat) : RatingOK (assemble nm m lat) :=
  ⟨hl,
   mget_lat_ok m hm "ramp_up_time_latency" (by decide),
   mget_lat_ok m hm "bus_factor_latency" (by decide),
   mget_lat_ok m hm "performance_claims_latency" (by decide),
   mget_lat_ok m hm "license_latency" (by decide),
   mget_lat_ok m hm "dataset_and_code_score_latency" (by decide),
   mget_lat_ok m hm "dataset_quality_latency" (by decide),
   mget_lat_ok m hm "code_quality_latency" (by decide),
   mget_lat_ok m hm "size_score_latency" (by decide),
   mget_score_ok m hm "net_score" (by decide),
   mget_score_ok m hm "ramp_up_time" (by decide),
   mget_score_ok m hm "bus_factor" (by decide),
   mget_score_ok m hm "performance_claims" (by decide),
   mget_score_ok m hm "license" (by decide),
   mget_score_ok m hm "dataset_and_code_score" (by decide),
   mget_score_ok m hm "dataset_quality" (by decide),
   mget_score_ok m hm "code_quality" (by decide),
   msize_ok m hm "raspberry_pi" (by decide),
   msize_ok m hm "jetson_nano" (by decide),
   msize_ok m hm "desktop_pc" (by decide),
   msize_ok m hm "aws_server" (by decide)⟩

theorem rate_model_rating_ok (env : Env) (ratings : String → Option Stored) (id : String)
    (r : ModelRatingR) (tbl : String → Option Stored) (n : Nat)
    (hcalc : ∀ nm u, MetricsOK (env.calcM nm u)) (ht : env.t1 ≤ env.t2)
    (hstored : ∀ s rec, ratings s = some rec → RatingOK rec.rating)
    (hres : rate_model env ratings id = (.ok r, tbl, n)) : RatingOK r := by
  unfold rate_model at hres
  by_cases h1 : falsyS env.auth = true
  · rw [if_pos h1] at hres; simp at hres
  rw [if_neg h1] at hres
  by_cases h2 : env.artifactsFail = true
  · rw [if_pos h2] at hres; simp at hres
  rw [if_neg h2] at hres
  cases hart : env.artifacts id with
  | none => rw [hart] at hres; simp at hres
  | some art =>
    rw [hart] at hres
    dsimp only at hres
    by_cases h3 : art.atype ≠ some "model"
    · rw [if_pos h3] at hres; simp at hres
    rw [if_neg h3] at hres
    by_cases h4 : env.ratingsGetFail = true
    · rw [if_pos h4] at hres; simp at hres
    rw [if_neg h4] at hres
    cases hcache : ratings id with
    | some st =>
      rw [hcache] at hres
      dsimp only at hres
      have hr : r = st.rating := by
        have := congrArg (fun p => p.1) hres
        simpa using this.symm
      rw [hr]
      exact hstored id st hcache
    | none =>
      rw [hcache] at hres
      dsimp only at hres
      cases hparse : env.parseType art.url with
      | none => rw [hparse] at hres; simp at hres
      | some t =>
        rw [hparse] at hres
        dsimp only at hres
        by_cases h5 : t ≠ some "model"
        · rw [if_pos h5] at hres; simp at hres
        rw [if_neg h5] at hres
        by_cases h6 : env.calcFail = true
        · rw [if_pos h6] at hres; simp at hres
        rw [if_neg h6] at hres
        by_cases h7 : env.putFail = true
        · rw [if_pos h7] at hres; simp at hres
        rw [if_neg h7] at hres
        have hr : r = assemble art.name (env.calcM art.name art.url) (env.t2 - env.t1) := by
          have := congrArg (fun p => p.1) hres
          simpa using this.symm
        rw [hr]
        exact assemble_ok _ _ _ (hcalc art.name art.url) (by linarith)

end RatingEngine
